import Mathlib

/-!
Verification development for the garmin-to-notion reconciliation engine.

This file shallowly embeds the core of the repository (sync.py,
garmin-activities.py, daily-steps.py, sleep-data.py) in Lean 4:

* timestamps are modelled as a day-number/time-of-day pair together with an
  optional fixed UTC offset in seconds (Python `datetime` objects carry a
  year-month-day representation; we convert via the standard civil-calendar
  day count, which keeps every operation of the code -- `replace(hour=0,...)`,
  `+ timedelta(...)`, `astimezone`, instant comparison -- expressible without
  a calendar inverse);
* Python floats are modelled as rationals, with `round(x, n)` modelled as
  round-half-up on rationals (float ties are not exactly representable in
  decimal, so no claim in this development depends on tie behaviour);
* the Notion client is modelled as a store of documents plus an environment
  of injectable per-call failures; ISO strings sent to Notion date filters
  are modelled by the instants they denote;
* exceptions are modelled with `Except`/`Option`.

Definitions keep the source's snake_case names; the near-duplicate
implementations in garmin-activities.py get a `ga_` prefixed name.
-/

namespace GarminSync

instance {α β : Type} [DecidableEq α] [DecidableEq β] : DecidableEq (Except α β) := fun x y =>
  match x, y with
  | .ok a, .ok b => if h : a = b then .isTrue (by rw [h]) else .isFalse (by simp [h])
  | .error a, .error b => if h : a = b then .isTrue (by rw [h]) else .isFalse (by simp [h])
  | .ok _, .error _ => .isFalse (by simp)
  | .error _, .ok _ => .isFalse (by simp)

/-! ## String helpers (models of the Python `str` operations used) -/

/-- Characters stripped by Python `str.strip()` (ASCII whitespace). -/
def isPySpace (c : Char) : Bool :=
  c = ' ' || c = '\t' || c = '\n' || c = '\r' || c = '\x0b' || c = '\x0c'

/-- Model of Python `str.strip()`. -/
def pyStrip (s : List Char) : List Char :=
  ((s.dropWhile isPySpace).reverse.dropWhile isPySpace).reverse

/-- Does `l` start with `p`? (model of `str.startswith`). -/
def startsWithL : List Char → List Char → Bool
  | _, [] => true
  | [], _ :: _ => false
  | a :: as, b :: bs => a = b && startsWithL as bs

/-- Does `hay` contain `sub` as a contiguous substring (Python `in`)? -/
def containsL : List Char → List Char → Bool
  | [], sub => sub.isEmpty
  | c :: t, sub => startsWithL (c :: t) sub || containsL t sub

/-- Model of Python `str.replace` (left to right, non-overlapping). -/
def replaceL (pat rep : List Char) : List Char → List Char
  | [] => []
  | c :: t =>
    if pat ≠ [] ∧ startsWithL (c :: t) pat then
      rep ++ replaceL pat rep (t.drop (pat.length - 1))
    else
      c :: replaceL pat rep t
termination_by l => l.length
decreasing_by
  · simp only [List.length_drop, List.length_cons]
    omega
  · simp only [List.length_cons]
    omega

/-- Model of Python `str.lower()` (ASCII). -/
def lowerL (s : List Char) : List Char := s.map Char.toLower

def strContains (hay sub : String) : Bool := containsL hay.data sub.data

def strLower (s : String) : String := ⟨lowerL s.data⟩

def strReplace (s pat rep : String) : String := ⟨replaceL pat.data rep.data s.data⟩

/-- Model of Python `str.title()`: the first letter of every alphabetic run
is upper-cased, the rest lower-cased. -/
def titleL : Bool → List Char → List Char
  | _, [] => []
  | prevAlpha, c :: cs =>
    let c' := if c.isAlpha then (if prevAlpha then c.toLower else c.toUpper) else c
    c' :: titleL c.isAlpha cs

def strTitle (s : String) : String := ⟨titleL false s.data⟩

/-- Decimal digit value of a char. -/
def digitVal (c : Char) : ℕ := c.toNat - '0'.toNat

/-- Two-digit zero-padded decimal rendering (Python `f-string` `:02d`). -/
def pad2 (n : ℤ) : String :=
  if n < 10 ∧ 0 ≤ n then "0" ++ toString n else toString n

/-! ## Civil calendar arithmetic

Python `datetime` values are year/month/day/h/m/s; we carry them as
(days since 1970-01-01, seconds into the day).  `daysFromCivil` is the usual
proleptic-Gregorian day count; `civilYearOfDay` is the year component of its
inverse (needed only to evaluate the Europe/Brussels DST rule).
-/

def isLeapYear (y : ℤ) : Bool := (y % 4 = 0 && y % 100 ≠ 0) || y % 400 = 0

def daysInMonth (y : ℤ) (m : ℕ) : ℕ :=
  match m with
  | 1 => 31 | 2 => if isLeapYear y then 29 else 28
  | 3 => 31 | 4 => 30 | 5 => 31 | 6 => 30 | 7 => 31
  | 8 => 31 | 9 => 30 | 10 => 31 | 11 => 30 | 12 => 31
  | _ => 0

/-- Cumulative days before month `m` in a non-leap year. -/
def daysBeforeMonthCommon (m : ℕ) : ℕ :=
  match m with
  | 1 => 0 | 2 => 31 | 3 => 59 | 4 => 90 | 5 => 120 | 6 => 151
  | 7 => 181 | 8 => 212 | 9 => 243 | 10 => 273 | 11 => 304 | 12 => 334
  | _ => 365

/-- Days in years `[0, y)` of the proleptic Gregorian calendar. -/
def daysBeforeYear (y : ℤ) : ℤ :=
  365 * y + (y + 3) / 4 - (y + 99) / 100 + (y + 399) / 400

/-- Day number of civil date y-m-d counted from 1970-01-01. -/
def daysFromCivil (y : ℤ) (m d : ℕ) : ℤ :=
  daysBeforeYear y + daysBeforeMonthCommon m
    + (if 2 < m ∧ isLeapYear y then 1 else 0) + (d : ℤ) - 1 - 719528

/-- Year of the civil date `day` days after 1970-01-01
(the year part of the standard `civil_from_days` algorithm). -/
def civilYearOfDay (day : ℤ) : ℤ :=
  let z := day + 719468
  let era := z / 146097
  let doe := z - era * 146097
  let yoe := (doe - doe / 1461 + doe / 36524 - doe / 146096) / 365
  let y := yoe + era * 400
  let doy := doe - (365 * yoe + yoe / 4 - yoe / 100)
  let mp := (5 * doy + 2) / 153
  let m := mp + (if mp < 10 then 3 else -9)
  y + (if m ≤ 2 then 1 else 0)

/-- Day-of-week with `0` = Sunday (1970-01-01 was a Thursday). -/
def dayOfWeekSun0 (day : ℤ) : ℤ := (day + 4) % 7

/-- Epoch day of the last Sunday of month `m` (March or October) of year `y`. -/
def lastSundayEpochDay (y : ℤ) (m : ℕ) : ℤ :=
  let d31 := daysFromCivil y m 31
  d31 - dayOfWeekSun0 d31

/-- UTC offset (seconds) of the `Europe/Brussels` zone at UTC instant `t`
(seconds since epoch): CET (+01:00), switching to CEST (+02:00) between
01:00 UTC of the last Sunday of March and 01:00 UTC of the last Sunday of
October (the EU rule in force since 1996; all instants in this development
are in the 2020s). -/
def brusselsOffset (t : ℤ) : ℤ :=
  let y := civilYearOfDay (t / 86400)
  let dstStart := lastSundayEpochDay y 3 * 86400 + 3600
  let dstEnd := lastSundayEpochDay y 10 * 86400 + 3600
  if dstStart ≤ t ∧ t < dstEnd then 7200 else 3600

/-! ## The `datetime` model -/

/-- Model of a Python `datetime`: `day` = days since 1970-01-01 of the
wall-clock date, `tod` = wall-clock seconds into the day (microseconds are
always zero on the code's paths), `off` = the fixed `tzinfo` UTC offset in
seconds (`none` = naive). -/
structure PyDateTime where
  day : ℤ
  tod : ℤ
  off : Option ℤ
  deriving DecidableEq, Repr

/-- The instant (seconds since epoch) denoted by an aware datetime;
a naive datetime is read with offset 0 (the code only compares aware ones). -/
def toUTCSeconds (d : PyDateTime) : ℤ :=
  d.day * 86400 + d.tod - d.off.getD 0

/-- Model of `dt + timedelta(seconds=n)`: Python adds to the wall clock and
keeps `tzinfo` unchanged. -/
def addWallSeconds (d : PyDateTime) (n : ℤ) : PyDateTime :=
  let w := d.day * 86400 + d.tod + n
  ⟨w / 86400, w % 86400, d.off⟩

/-- Model of `dt.astimezone(local_tz)` with `local_tz = Europe/Brussels`
(pytz): the wall clock of the same instant in Brussels, carrying the fixed
offset in force at that instant. -/
def astimezoneBrussels (d : PyDateTime) : PyDateTime :=
  let t := toUTCSeconds d
  let o := brusselsOffset t
  let w := t + o
  ⟨w / 86400, w % 86400, some o⟩

/-! ## `datetime.fromisoformat` / `strptime` models

`fromisoformat` is modelled with the pre-3.11 grammar:
`YYYY-MM-DD[<sep>HH[:MM[:SS]][±HH:MM]]` with range validation (fractional
seconds never reach it on the code's paths, `parse_utc_datetime` strips them
first; fractional offsets are not modelled).  `strptime(s, '%Y-%m-%dT%H:%M:%S')`
is modelled as the fixed-width form of that format (the Garmin feed always
emits two-digit fields).
-/

def readDigits2 (a b : Char) : Option ℕ :=
  if a.isDigit ∧ b.isDigit then some (10 * digitVal a + digitVal b) else none

def readDigits4 (a b c d : Char) : Option ℕ :=
  if a.isDigit ∧ b.isDigit ∧ c.isDigit ∧ d.isDigit then
    some (1000 * digitVal a + 100 * digitVal b + 10 * digitVal c + digitVal d)
  else none

/-- Parse the `±HH:MM` timezone suffix (or nothing). Returns the offset in
seconds, `none` result meaning a parse error. -/
def parseIsoOffset : List Char → Option (Option ℤ)
  | [] => some none
  | sc :: o1 :: o2 :: ':' :: o3 :: o4 :: [] =>
    if sc = '+' ∨ sc = '-' then
      match readDigits2 o1 o2, readDigits2 o3 o4 with
      | some oh, some om =>
        if oh ≤ 23 ∧ om ≤ 59 then
          let v : ℤ := oh * 3600 + om * 60
          some (some (if sc = '-' then -v else v))
        else none
      | _, _ => none
    else none
  | _ => none

/-- Parse the `HH[:MM[:SS]][±HH:MM]` time part. Returns (seconds into day,
offset). -/
def parseIsoTime : List Char → Option (ℤ × Option ℤ)
  | h1 :: h2 :: rest =>
    match readDigits2 h1 h2 with
    | none => none
    | some hh =>
      if hh ≤ 23 then
        match rest with
        | ':' :: m1 :: m2 :: rest2 =>
          match readDigits2 m1 m2 with
          | none => none
          | some mm =>
            if mm ≤ 59 then
              match rest2 with
              | ':' :: s1 :: s2 :: rest3 =>
                match readDigits2 s1 s2 with
                | none => none
                | some ss =>
                  if ss ≤ 59 then
                    match parseIsoOffset rest3 with
                    | none => none
                    | some off => some (hh * 3600 + mm * 60 + ss, off)
                  else none
              | _ =>
                match parseIsoOffset rest2 with
                | none => none
                | some off => some (hh * 3600 + mm * 60, off)
            else none
        | _ =>
          match parseIsoOffset rest with
          | none => none
          | some off => some ((hh : ℤ) * 3600, off)
      else none
  | _ => none

/-- Model of `datetime.fromisoformat` (pre-3.11 grammar, see above). -/
def fromisoformat (cs : List Char) : Option PyDateTime :=
  match cs with
  | y1 :: y2 :: y3 :: y4 :: '-' :: m1 :: m2 :: '-' :: d1 :: d2 :: rest =>
    match readDigits4 y1 y2 y3 y4, readDigits2 m1 m2, readDigits2 d1 d2 with
    | some y, some mo, some dy =>
      if 1 ≤ y ∧ 1 ≤ mo ∧ mo ≤ 12 ∧ 1 ≤ dy ∧ dy ≤ daysInMonth y mo then
        match rest with
        | [] => some ⟨daysFromCivil y mo dy, 0, none⟩
        | _sep :: timeCs =>
          match parseIsoTime timeCs with
          | none => none
          | some (tod, off) => some ⟨daysFromCivil y mo dy, tod, off⟩
      else none
    | _, _, _ => none
  | _ => none

/-- Model of `datetime.strptime(s[:19], '%Y-%m-%dT%H:%M:%S')` applied to the
first 19 characters: the fixed-width `YYYY-MM-DDTHH:MM:SS` form. -/
def strptime19 (cs : List Char) : Option PyDateTime :=
  match cs.take 19 with
  | y1 :: y2 :: y3 :: y4 :: '-' :: m1 :: m2 :: '-' :: d1 :: d2 :: 'T'
      :: h1 :: h2 :: ':' :: mi1 :: mi2 :: ':' :: s1 :: s2 :: [] =>
    match readDigits4 y1 y2 y3 y4, readDigits2 m1 m2, readDigits2 d1 d2,
          readDigits2 h1 h2, readDigits2 mi1 mi2, readDigits2 s1 s2 with
    | some y, some mo, some dy, some hh, some mm, some ss =>
      if 1 ≤ y ∧ 1 ≤ mo ∧ mo ≤ 12 ∧ 1 ≤ dy ∧ dy ≤ daysInMonth y mo
          ∧ hh ≤ 23 ∧ mm ≤ 59 ∧ ss ≤ 59 then
        some ⟨daysFromCivil y mo dy, hh * 3600 + mm * 60 + ss, none⟩
      else none
    | _, _, _, _, _, _ => none
  | _ => none

/-! ## `parse_utc_datetime` and friends (sync.py 110-161; identical code in
garmin-activities.py 147-224 except for `get_local_date_range`) -/

/-- The string rewriting done by `parse_utc_datetime` before parsing:
strip, turn a trailing `Z` into `+00:00`, and drop a fractional-seconds part
(keeping anything from the first `+`/`-` after the dot). -/
def preprocessTimestamp (s : String) : List Char :=
  let cs := pyStrip s.data
  let cs := if cs ≠ [] ∧ cs.getLast? = some 'Z' then
      cs.dropLast ++ ('+' :: '0' :: '0' :: ':' :: '0' :: '0' :: [])
    else cs
  if cs.contains '.' then
    let base := cs.takeWhile (· ≠ '.')
    let rest := (cs.dropWhile (· ≠ '.')).drop 1
    let tzPart := rest.dropWhile (fun c => c ≠ '+' ∧ c ≠ '-')
    base ++ tzPart
  else cs

/-- `parse_utc_datetime` on a (non-None) string argument. -/
def parse_utc_datetime_str (s : String) : Option PyDateTime :=
  if s = "" then none
  else
    let cs := preprocessTimestamp s
    let dt? :=
      match fromisoformat cs with
      | some dt => some dt
      | none => strptime19 cs
    match dt? with
    | none => none
    | some dt =>
      if dt.off = none then some { dt with off := some 0 } else some dt

/-- `parse_utc_datetime` (the Python argument may be `None`, which is falsy
like `""`). -/
def parse_utc_datetime (s : Option String) : Option PyDateTime :=
  match s with
  | none => none
  | some s => parse_utc_datetime_str s

/-- A Notion `date` property value as written by the code: a real datetime,
or (on the `convert_gmt_to_local` fallback path) the original raw string. -/
inductive DateValue where
  | dt (d : PyDateTime)
  | raw (s : String)
  deriving DecidableEq, Repr

/-- `convert_gmt_to_local` (sync.py 143-148): Brussels wall clock of the
parsed UTC instant, or the original string when unparsable. -/
def convert_gmt_to_local (s : Option String) : Option DateValue :=
  match s with
  | none => none
  | some str =>
    match parse_utc_datetime_str str with
    | none => some (.raw str)
    | some dt => some (.dt (astimezoneBrussels dt))

/-- `get_local_date_range` (sync.py 151-161): start of the Brussels-local
day and `start + 1 day - 1 second`; `(None, None)` when unparsable. -/
def get_local_date_range (s : Option String) : Option (PyDateTime × PyDateTime) :=
  match parse_utc_datetime s with
  | none => none
  | some dt =>
    let dtLocal := astimezoneBrussels dt
    let startOfDay : PyDateTime := ⟨dtLocal.day, 0, dtLocal.off⟩
    let endOfDay := addWallSeconds (addWallSeconds startOfDay 86400) (-1)
    some (startOfDay, endOfDay)

/-- `get_local_date_range` (garmin-activities.py 204-224): start of the
Brussels-local day and the next local midnight; when unparsable, the window
is sliced out of the raw string (`split('T')[0]` and the following calendar
date) -- and that `datetime.fromisoformat(date_str)` call can raise
(`Except.error`) when the prefix is not itself a valid date. -/
def ga_get_local_date_range (s : String) : Except Unit (PyDateTime × PyDateTime) :=
  match parse_utc_datetime_str s with
  | some dt =>
    let dtLocal := astimezoneBrussels dt
    let startOfDay : PyDateTime := ⟨dtLocal.day, 0, dtLocal.off⟩
    let endOfDay := addWallSeconds startOfDay 86400
    .ok (startOfDay, endOfDay)
  | none =>
    let dateStr := s.data.takeWhile (· ≠ 'T')
    match fromisoformat dateStr with
    | none => .error ()
    | some d =>
      .ok (d, ⟨(addWallSeconds d 86400).day, 0, none⟩)

/-! ## Numeric helpers

These re-implement floor, absolute value and powers of ten on `ℚ` by
direct computation (rather than through `Mathlib`'s typeclass towers) so
that every definition in this file evaluates under `decide`.
-/

def ratFloor (x : ℚ) : ℤ := x.num.fdiv (x.den : ℤ)

def ratAbs (x : ℚ) : ℚ := if x < 0 then -x else x

def pow10 (n : ℕ) : ℚ :=
  match n with
  | 0 => 1
  | n + 1 => 10 * pow10 n

/-- Model of Python `round(x)`: round-half-up on the rational model of
floats (float ties are not exactly representable in decimal, so no claim
here depends on tie behaviour). -/
def roundInt (x : ℚ) : ℤ := ratFloor (x + 1/2)

/-- Model of Python `round(x, n)`. -/
def roundTo (n : ℕ) (x : ℚ) : ℚ := ((roundInt (x * pow10 n) : ℚ)) / pow10 n

/-- `approx_equal` (sync.py 164-168, garmin-activities.py 39-43).  The
`None` branch of the Python function is unreachable at its call sites
(both arguments are always numbers there), so the model takes rationals. -/
def approx_equal (a b eps : ℚ) : Bool := decide (ratAbs (a - b) ≤ eps)

/-! ## Field formatters (sync.py 171-260) -/

/-- The `activity_mapping` dict inside `format_activity_type`. -/
def activityMapping (ft : String) : Option String :=
  if ft = "Barre" then some "Strength"
  else if ft = "Indoor Cardio" then some "Cardio"
  else if ft = "Indoor Cycling" then some "Cycling"
  else if ft = "Indoor Rowing" then some "Rowing"
  else if ft = "Speed Walking" then some "Walking"
  else if ft = "Strength Training" then some "Strength"
  else if ft = "Treadmill Running" then some "Running"
  else none

/-- `format_activity_type`: derive (category, subcategory) from the raw type
key and the free-text label.  The Python assigns `activity_subtype =
formatted_type` in every branch before the label overrides, so the
subcategory is the formatted type key unless a label override fires. -/
def format_activity_type (activity_type activity_name : String) : String × String :=
  let ft := if activity_type = "" then "Unknown" else strTitle (strReplace activity_type "_" " ")
  let ty :=
    match activityMapping ft with
    | some t => t
    | none =>
      if ft = "Rowing V2" then "Rowing"
      else if ft = "Yoga" ∨ ft = "Pilates" then "Yoga/Pilates"
      else ft
  let nameLower := strLower activity_name
  if activity_name ≠ "" ∧ strContains nameLower "meditation" then ("Meditation", "Meditation")
  else if activity_name ≠ "" ∧ strContains nameLower "barre" then ("Strength", "Barre")
  else if activity_name ≠ "" ∧ strContains nameLower "stretch" then ("Stretching", "Stretching")
  else (ty, ft)

/-- `format_entertainment` (the Python argument may be `None`). -/
def format_entertainment (activity_name : Option String) : String :=
  match activity_name with
  | none => "Unnamed Activity"
  | some s => if s = "" then "Unnamed Activity" else strReplace s "ENTERTAINMENT" "Netflix"

def strStartsWith (s p : String) : Bool := startsWithL s.data p.data

/-- `format_training_message`: first matching prefix, in the dict's
insertion order. -/
def format_training_message (message : String) : String :=
  if message = "" then "Unknown"
  else if strStartsWith message "NO_" then "No Benefit"
  else if strStartsWith message "MINOR_" then "Some Benefit"
  else if strStartsWith message "RECOVERY_" then "Recovery"
  else if strStartsWith message "MAINTAINING_" then "Maintaining"
  else if strStartsWith message "IMPROVING_" then "Impacting"
  else if strStartsWith message "IMPACTING_" then "Impacting"
  else if strStartsWith message "HIGHLY_" then "Highly Impacting"
  else if strStartsWith message "OVERREACHING_" then "Overreaching"
  else message

def format_training_effect (label : String) : String :=
  if label = "" then "Unknown" else strTitle (strReplace label "_" " ")

/-- `format_pace`: minutes-per-kilometre from a speed in m/s (`int()`
truncates, which is `floor` for the positive values reaching it). -/
def format_pace (average_speed : ℚ) : String :=
  if 0 < average_speed then
    let pace := 1000 / (average_speed * 60)
    let minutes : ℤ := ratFloor pace
    let seconds : ℤ := ratFloor ((pace - (minutes : ℚ)) * 60)
    toString minutes ++ ":" ++ pad2 seconds ++ " min/km"
  else ""

/-- `format_duration` (`//` and `%` are Python floor division / modulo). -/
def format_duration (seconds : ℚ) : String :=
  if seconds = 0 then "0h 0m"
  else
    let hours : ℤ := ratFloor (seconds / 3600)
    let rem : ℚ := seconds - 3600 * (hours : ℚ)
    let minutes : ℤ := ratFloor (rem / 60)
    toString hours ++ "h " ++ toString minutes ++ "m"

def seconds_to_hours (seconds : ℚ) : ℚ :=
  if seconds = 0 then 0 else roundTo 2 (seconds / 3600)

/-! ## The Notion store model

A document's properties: `none` models a property that is missing or whose
payload value is `null` (the code's accessors treat the two identically).
Numbers are rationals, select/rich-text values strings, checkboxes booleans.
-/

structure NotionProps where
  garminId : Option ℤ
  date : Option DateValue
  activityType : Option String
  subactivityType : Option String
  activityName : Option String
  distanceKm : Option ℚ
  durationMin : Option ℚ
  calories : Option ℚ
  avgPace : Option String
  avgPower : Option ℚ
  maxPower : Option ℚ
  trainingEffect : Option String
  aerobic : Option ℚ
  aerobicEffect : Option String
  anaerobic : Option ℚ
  anaerobicEffect : Option String
  pr : Option Bool
  fav : Option Bool
  deriving DecidableEq, Repr

structure NotionPage where
  id : ℕ
  props : NotionProps
  deriving DecidableEq, Repr

structure Store where
  docs : List NotionPage
  nextId : ℕ
  deriving DecidableEq, Repr

def Store.addDoc (s : Store) (p : NotionProps) : Store :=
  ⟨s.docs ++ [⟨s.nextId, p⟩], s.nextId + 1⟩

def Store.updateDoc (s : Store) (pid : ℕ) (p : NotionProps) : Store :=
  ⟨s.docs.map (fun d => if d.id = pid then ⟨d.id, p⟩ else d), s.nextId⟩

/-- A Garmin activity record as the code reads it: `none` models a missing
key (the code supplies defaults via `.get`). `typeKey` stands for
`activity.get('activityType', {}).get('typeKey', 'Unknown')`. -/
structure Activity where
  activityId : Option ℤ
  startTimeGMT : Option String
  activityName : Option String
  typeKey : Option String
  distance : Option ℚ
  duration : Option ℚ
  calories : Option ℚ
  averageSpeed : Option ℚ
  avgPower : Option ℚ
  maxPower : Option ℚ
  trainingEffectLabel : Option String
  aerobicTrainingEffect : Option ℚ
  aerobicTrainingEffectMessage : Option String
  anaerobicTrainingEffect : Option ℚ
  anaerobicTrainingEffectMessage : Option String
  pr : Option Bool
  favorite : Option Bool
  deriving DecidableEq, Repr

def emptyActivity : Activity :=
  ⟨none, none, none, none, none, none, none, none, none,
   none, none, none, none, none, none, none, none⟩

/-! ## Safe accessors (garmin-activities.py 308-346)

The two-level missing-key / null-payload distinction of the Notion wire
format is flattened into the single `Option` of `NotionProps`; both levels
give the accessor's default. -/

def safe_get_number (prop : Option ℚ) (dflt : ℚ) : ℚ := prop.getD dflt

def safe_get_select (prop : Option String) (dflt : String) : String := prop.getD dflt

def safe_get_checkbox (prop : Option Bool) (dflt : Bool) : Bool := prop.getD dflt

def safe_get_rich_text (prop : Option String) (dflt : String) : String := prop.getD dflt

/-! ## Change detectors -/

/-- `activity_needs_update` (sync.py 358-386): Garmin-ID backfill, distance
with tolerance 0.01, duration with tolerance 0.1 -- nothing else. -/
def activity_needs_update (existing : NotionProps) (new : Activity) : Bool :=
  if existing.garminId = none ∧ new.activityId ≠ none then true
  else
    let existing_distance := existing.distanceKm.getD 0
    let new_distance := roundTo 2 (new.distance.getD 0 / 1000)
    if !approx_equal existing_distance new_distance (1/100) then true
    else
      let existing_duration := existing.durationMin.getD 0
      let new_duration := roundTo 2 (new.duration.getD 0 / 60)
      if !approx_equal existing_duration new_duration (1/10) then true
      else false

/-- `activity_needs_update` (garmin-activities.py 349-404): Garmin-ID
missing, every measurement with its tolerance, every exact field, and the
subcategory backfill rule. -/
def ga_activity_needs_update (existing : NotionProps) (new : Activity) : Bool :=
  let activity_name := strLower (new.activityName.getD "")
  let ts := format_activity_type (new.typeKey.getD "Unknown") activity_name
  let activity_type := ts.1
  let activity_subtype := ts.2
  if existing.garminId = none then true
  else
    let new_distance := roundTo 2 (new.distance.getD 0 / 1000)
    let new_duration := roundTo 2 (new.duration.getD 0 / 60)
    let new_calories : ℚ := (roundInt (new.calories.getD 0) : ℚ)
    let new_pace := format_pace (new.averageSpeed.getD 0)
    let new_avg_power := roundTo 1 (new.avgPower.getD 0)
    let new_max_power := roundTo 1 (new.maxPower.getD 0)
    let new_training_effect := format_training_effect (new.trainingEffectLabel.getD "Unknown")
    let new_aerobic := roundTo 1 (new.aerobicTrainingEffect.getD 0)
    let new_aerobic_effect := format_training_message (new.aerobicTrainingEffectMessage.getD "Unknown")
    let new_anaerobic := roundTo 1 (new.anaerobicTrainingEffect.getD 0)
    let new_anaerobic_effect := format_training_message (new.anaerobicTrainingEffectMessage.getD "Unknown")
    let new_pr := new.pr.getD false
    let new_fav := new.favorite.getD false
    let needs :=
      !approx_equal (safe_get_number existing.distanceKm 0) new_distance (1/100) ||
      !approx_equal (safe_get_number existing.durationMin 0) new_duration (1/100) ||
      decide (safe_get_number existing.calories 0 ≠ new_calories) ||
      decide (safe_get_rich_text existing.avgPace "" ≠ new_pace) ||
      !approx_equal (safe_get_number existing.avgPower 0) new_avg_power (1/10) ||
      !approx_equal (safe_get_number existing.maxPower 0) new_max_power (1/10) ||
      decide (safe_get_select existing.trainingEffect "Unknown" ≠ new_training_effect) ||
      !approx_equal (safe_get_number existing.aerobic 0) new_aerobic (1/10) ||
      decide (safe_get_select existing.aerobicEffect "Unknown" ≠ new_aerobic_effect) ||
      !approx_equal (safe_get_number existing.anaerobic 0) new_anaerobic (1/10) ||
      decide (safe_get_select existing.anaerobicEffect "Unknown" ≠ new_anaerobic_effect) ||
      decide (safe_get_checkbox existing.pr false ≠ new_pr) ||
      decide (safe_get_checkbox existing.fav false ≠ new_fav) ||
      decide (safe_get_select existing.activityType "" ≠ activity_type)
    let existing_subtype := safe_get_select existing.subactivityType ""
    if existing_subtype ≠ "" then needs || decide (existing_subtype ≠ activity_subtype)
    else if activity_subtype ≠ "" ∧ activity_subtype ≠ activity_type then true
    else needs

/-! ## Collaborator environment

All collaborator calls are deterministic functions of their arguments plus
an injectable failure: `none`/`Except.ok` means the call succeeds against
the modelled store, `some e`/`Except.error e` means the client raised `e`.
-/

structure PyError where
  msg : String
  deriving DecidableEq, Repr

structure StepsData where
  totalSteps : Option ℤ
  totalDistanceMeters : Option ℚ
  dailyStepGoal : Option ℤ
  deriving DecidableEq, Repr

structure SleepDTO where
  deepSleepSeconds : Option ℤ
  lightSleepSeconds : Option ℤ
  remSleepSeconds : Option ℤ
  awakeSleepSeconds : Option ℤ
  restingHeartRate : Option ℤ
  sleepStartTimestampLocal : Option String
  sleepEndTimestampLocal : Option String
  deriving DecidableEq, Repr

structure Env where
  idQueryErr : ℤ → Option PyError
  fbQueryErr : Option PyError
  createErr : NotionProps → Option PyError
  updateErr : ℕ → NotionProps → Option PyError
  stepsQueryErr : String → Option PyError
  stepsFetch : String → Except PyError (Option StepsData)
  stepsCreateErr : String → Option PyError
  sleepQueryErr : String → Option PyError
  sleepFetch : String → Except PyError (Option SleepDTO)
  sleepCreateErr : String → Option PyError

/-- The environment in which every collaborator call succeeds and every
daily fetch returns no data. -/
def envAllOk : Env :=
  ⟨fun _ => none, none, fun _ => none, fun _ _ => none,
   fun _ => none, fun _ => .ok none, fun _ => none,
   fun _ => none, fun _ => .ok none, fun _ => none⟩

/-! ## Identity resolution -/

inductive LookupResult where
  | notFound
  | unique (page : NotionPage)
  | multiple (ids : List ℕ)
  deriving DecidableEq, Repr

def matchesGarminId (g : ℤ) (p : NotionPage) : Bool := p.props.garminId = some g

/-- `activity_exists_by_garmin_id` (sync.py 312-328). -/
def activity_exists_by_garmin_id (env : Env) (store : Store) (garmin_id : Option ℤ) :
    Except PyError LookupResult :=
  match garmin_id with
  | none => .ok .notFound
  | some g =>
    match env.idQueryErr g with
    | some e => .error e
    | none =>
      match store.docs.filter (matchesGarminId g) with
      | [] => .ok .notFound
      | [p] => .ok (.unique p)
      | ps => .ok (.multiple (ps.map (·.id)))

/-- A document matches the fallback filter when its date denotes an instant
inside the closed range and its category/title match exactly (Notion
compares the instants denoted by the ISO strings; a missing property or a
raw-string date never matches). -/
def matchesFallback (startB endB : PyDateTime) (atype aname : String) (p : NotionPage) : Bool :=
  (match p.props.date with
   | some (.dt d) =>
     decide (toUTCSeconds startB ≤ toUTCSeconds d ∧ toUTCSeconds d ≤ toUTCSeconds endB)
   | _ => false)
  && p.props.activityType = some atype
  && p.props.activityName = some aname

/-- `activity_exists_by_date_fallback` (sync.py 331-355): local-day range
(used with `on_or_after`/`on_or_before`, both inclusive) + type + name. -/
def activity_exists_by_date_fallback (env : Env) (store : Store)
    (activity_date_gmt : Option String) (atype aname : String) :
    Except PyError LookupResult :=
  match get_local_date_range activity_date_gmt with
  | none => .ok .notFound
  | some (s, e) =>
    match env.fbQueryErr with
    | some err => .error err
    | none =>
      match store.docs.filter (matchesFallback s e atype aname) with
      | [] => .ok .notFound
      | [p] => .ok (.unique p)
      | ps => .ok (.multiple (ps.map (·.id)))

/-! ## Upsert executors -/

inductive WriteEvent where
  | createCall (props : NotionProps)
  | updateCall (pageId : ℕ) (props : NotionProps)
  deriving DecidableEq, Repr

/-- The error-message test in sync.py's `create_activity` handler. -/
def is_schema_error (e : PyError) : Bool :=
  let m := strLower e.msg
  strContains m "select" || strContains m "is not a valid" || strContains m "does not exist"

/-- The error-message test in garmin-activities.py's handlers (adds
`validation_error`). -/
def ga_is_schema_error (e : PyError) : Bool :=
  let m := strLower e.msg
  strContains m "select" || strContains m "is not a valid" || strContains m "does not exist"
    || strContains m "validation_error"

/-- The property set written by a create (sync.py 402-423 /
garmin-activities.py build_properties): display icons carry no observable
state for the claims and are elided. -/
def build_props (r : Activity) (aname atype asub : String) : NotionProps :=
  { garminId := r.activityId
  , date := convert_gmt_to_local r.startTimeGMT
  , activityType := some atype
  , subactivityType := some asub
  , activityName := some aname
  , distanceKm := some (roundTo 2 (r.distance.getD 0 / 1000))
  , durationMin := some (roundTo 2 (r.duration.getD 0 / 60))
  , calories := some ((roundInt (r.calories.getD 0) : ℚ))
  , avgPace := some (format_pace (r.averageSpeed.getD 0))
  , avgPower := some (roundTo 1 (r.avgPower.getD 0))
  , maxPower := some (roundTo 1 (r.maxPower.getD 0))
  , trainingEffect := some (format_training_effect (r.trainingEffectLabel.getD "Unknown"))
  , aerobic := some (roundTo 1 (r.aerobicTrainingEffect.getD 0))
  , aerobicEffect := some (format_training_message (r.aerobicTrainingEffectMessage.getD "Unknown"))
  , anaerobic := some (roundTo 1 (r.anaerobicTrainingEffect.getD 0))
  , anaerobicEffect := some (format_training_message (r.anaerobicTrainingEffectMessage.getD "Unknown"))
  , pr := some (r.pr.getD false)
  , fav := some (r.favorite.getD false) }

/-- The property set sent by an update: everything of `build_props` except
the title, and no Garmin ID entry when the record has none.  Notion updates
merge, so the untouched properties keep their stored values. -/
def merge_update_props (old : NotionProps) (r : Activity) (atype asub : String) : NotionProps :=
  { build_props r "" atype asub with
    activityName := old.activityName
    garminId := match r.activityId with | some g => some g | none => old.garminId }

/-- Result of one executor call: reported success, the store afterwards,
and the list of mutation calls attempted (in order). -/
structure WriteOutcome where
  success : Bool
  store : Store
  calls : List WriteEvent
  deriving DecidableEq, Repr

/-- The property set of the first create attempt for a record. -/
def create_props (r : Activity) : NotionProps :=
  let activity_name := format_entertainment r.activityName
  let ts := format_activity_type (r.typeKey.getD "Unknown") activity_name
  build_props r activity_name ts.1 ts.2

/-- The property set of the degraded create retry: the first attempt's
properties with both categoricals forced to "Unknown" (sync.py mutates the
dict in place; garmin-activities.py rebuilds, with the same result). -/
def create_retry_props (r : Activity) : NotionProps :=
  { create_props r with activityType := some "Unknown", subactivityType := some "Unknown" }

/-- The property set of the first update attempt. -/
def update_props (old : NotionProps) (r : Activity) : NotionProps :=
  let activity_name := format_entertainment r.activityName
  let ts := format_activity_type (r.typeKey.getD "Unknown") activity_name
  merge_update_props old r ts.1 ts.2

/-- The property set of garmin-activities.py's degraded update retry. -/
def ga_update_retry_props (old : NotionProps) (r : Activity) : NotionProps :=
  merge_update_props old r "Unknown" "Unknown"

/-- `create_activity` (sync.py 389-445): one retry with both categoricals
forced to "Unknown" on a schema error, terminal failure otherwise. -/
def create_activity (env : Env) (store : Store) (r : Activity) : WriteOutcome :=
  let props := create_props r
  match env.createErr props with
  | none => ⟨true, store.addDoc props, [.createCall props]⟩
  | some e =>
    if is_schema_error e then
      let props2 := create_retry_props r
      match env.createErr props2 with
      | none => ⟨true, store.addDoc props2, [.createCall props, .createCall props2]⟩
      | some _ => ⟨false, store, [.createCall props, .createCall props2]⟩
    else ⟨false, store, [.createCall props]⟩

/-- `update_activity` (sync.py 448-493): any failure is reported
immediately -- no retry path exists here. -/
def update_activity (env : Env) (store : Store) (existing : NotionPage) (r : Activity) :
    WriteOutcome :=
  let props := update_props existing.props r
  match env.updateErr existing.id props with
  | none => ⟨true, store.updateDoc existing.id props, [.updateCall existing.id props]⟩
  | some _ => ⟨false, store, [.updateCall existing.id props]⟩

/-- `create_activity` (garmin-activities.py 412-478): same retry shape as
sync.py's create, with the wider error test (DRY_RUN is modelled false). -/
def ga_create_activity (env : Env) (store : Store) (r : Activity) : WriteOutcome :=
  let props := create_props r
  match env.createErr props with
  | none => ⟨true, store.addDoc props, [.createCall props]⟩
  | some e =>
    if ga_is_schema_error e then
      let props2 := create_retry_props r
      match env.createErr props2 with
      | none => ⟨true, store.addDoc props2, [.createCall props, .createCall props2]⟩
      | some _ => ⟨false, store, [.createCall props, .createCall props2]⟩
    else ⟨false, store, [.createCall props]⟩

/-- `update_activity` (garmin-activities.py 481-546): unlike sync.py's
update, this one does retry once with "Unknown" categoricals. -/
def ga_update_activity (env : Env) (store : Store) (existing : NotionPage) (r : Activity) :
    WriteOutcome :=
  let props := update_props existing.props r
  match env.updateErr existing.id props with
  | none => ⟨true, store.updateDoc existing.id props, [.updateCall existing.id props]⟩
  | some e =>
    if ga_is_schema_error e then
      let props2 := ga_update_retry_props existing.props r
      match env.updateErr existing.id props2 with
      | none =>
        ⟨true, store.updateDoc existing.id props2,
         [.updateCall existing.id props, .updateCall existing.id props2]⟩
      | some _ => ⟨false, store, [.updateCall existing.id props, .updateCall existing.id props2]⟩
    else ⟨false, store, [.updateCall existing.id props]⟩

/-! ## The reconciliation driver (sync.py `sync_activities`, 496-553) -/

structure Counters where
  created : ℕ
  updated : ℕ
  unchanged : ℕ
  skipped : ℕ
  errors : ℕ
  deriving DecidableEq, Repr

structure SyncState where
  store : Store
  counters : Counters
  events : List WriteEvent
  deriving DecidableEq, Repr

def initState (store : Store) : SyncState := ⟨store, ⟨0, 0, 0, 0, 0⟩, []⟩

/-- One iteration of the `for activity in activities` loop of
`sync_activities`.  An exception escaping a query (which the loop body does
not guard) propagates as `Except.error` and aborts the whole run. -/
def sync_step (env : Env) (s : SyncState) (r : Activity) : Except PyError SyncState :=
  let garmin_id := r.activityId
  let activity_name := format_entertainment r.activityName
  let activity_type := (format_activity_type (r.typeKey.getD "Unknown") activity_name).1
  match activity_exists_by_garmin_id env s.store garmin_id with
  | .error e => .error e
  | .ok (.multiple _) => .ok { s with counters.skipped := s.counters.skipped + 1 }
  | .ok first =>
    match (match first with
           | .notFound =>
             activity_exists_by_date_fallback env s.store r.startTimeGMT activity_type activity_name
           | _ => .ok first) with
    | .error e => .error e
    | .ok (.multiple _) => .ok { s with counters.skipped := s.counters.skipped + 1 }
    | .ok (.unique page) =>
      if activity_needs_update page.props r then
        let w := update_activity env s.store page r
        if w.success then
          .ok ⟨w.store, { s.counters with updated := s.counters.updated + 1 }, s.events ++ w.calls⟩
        else
          .ok ⟨w.store, { s.counters with errors := s.counters.errors + 1 }, s.events ++ w.calls⟩
      else .ok { s with counters.unchanged := s.counters.unchanged + 1 }
    | .ok .notFound =>
      let w := create_activity env s.store r
      if w.success then
        .ok ⟨w.store, { s.counters with created := s.counters.created + 1 }, s.events ++ w.calls⟩
      else
        .ok ⟨w.store, { s.counters with errors := s.counters.errors + 1 }, s.events ++ w.calls⟩

/-- The whole `sync_activities` loop over a fetched batch. -/
def sync_activities_run (env : Env) : SyncState → List Activity → Except PyError SyncState
  | s, [] => .ok s
  | s, r :: rs =>
    match sync_step env s r with
    | .error e => .error e
    | .ok s' => sync_activities_run env s' rs

/-- `main` (sync.py 950-958): the process reports failure exactly when the
total error count over the four syncs is nonzero. -/
def main_exit_code (e1 e2 e3 e4 : ℕ) : ℕ :=
  if 0 < e1 + e2 + e3 + e4 then 1 else 0

/-! ## Daily steps sync (sync.py `sync_daily_steps`, 734-787) -/

structure StepsPage where
  id : ℕ
  date : String
  totalSteps : ℤ
  totalDistanceKm : ℚ
  stepGoal : ℤ
  deriving DecidableEq, Repr

structure StepsState where
  docs : List StepsPage
  nextId : ℕ
  created : ℕ
  skipped : ℕ
  errors : ℕ
  logs : List String
  deriving DecidableEq, Repr

/-- The `except` handler of the per-date `try`: count an error, printing
the message only when it does not mention 404. -/
def stepsOnError (s : StepsState) (e : PyError) : StepsState :=
  { s with
    errors := s.errors + 1
    logs := if strContains e.msg "404" then s.logs else s.logs ++ [e.msg] }

/-- One iteration of the per-date loop of `sync_daily_steps`.  The whole
body sits inside `try`, so any collaborator failure lands in the handler
and the loop continues. -/
def steps_day_step (env : Env) (s : StepsState) (date_str : String) : StepsState :=
  match env.stepsQueryErr date_str with
  | some e => stepsOnError s e
  | none =>
    if s.docs.any (fun d => d.date = date_str) then
      { s with skipped := s.skipped + 1 }
    else
      match env.stepsFetch date_str with
      | .error e => stepsOnError s e
      | .ok none => { s with skipped := s.skipped + 1 }
      | .ok (some sd) =>
        if 0 < sd.totalSteps.getD 0 then
          match env.stepsCreateErr date_str with
          | some e => stepsOnError s e
          | none =>
            { s with
              docs := s.docs ++ [⟨s.nextId, date_str, sd.totalSteps.getD 0,
                roundTo 2 (sd.totalDistanceMeters.getD 0 / 1000), sd.dailyStepGoal.getD 0⟩]
              nextId := s.nextId + 1
              created := s.created + 1 }
        else { s with skipped := s.skipped + 1 }

/-- The whole per-date loop, over the (today-descending) list of dates. -/
def sync_daily_steps_run (env : Env) : StepsState → List String → StepsState
  | s, [] => s
  | s, d :: ds => sync_daily_steps_run env (steps_day_step env s d) ds

/-! ## Sleep sync (sync.py `sync_sleep_data`, 794-879) -/

def hhmm (d : PyDateTime) : String :=
  pad2 (d.tod / 3600) ++ ":" ++ pad2 (d.tod % 3600 / 60)

/-- The `Times` rich-text: local start/end stamps with every `Z` removed,
re-parsed and rendered `HH:MM - HH:MM`; any inner failure yields `""`. -/
def format_sleep_times (start stop : Option String) : String :=
  match start, stop with
  | some st, some en =>
    match fromisoformat (replaceL ['Z'] [] st.data), fromisoformat (replaceL ['Z'] [] en.data) with
    | some a, some b => hhmm a ++ " - " ++ hhmm b
    | _, _ => ""
  | _, _ => ""

structure SleepPage where
  id : ℕ
  dateTitle : String
  longDate : String
  times : String
  totalSleepText : String
  totalSleepH : ℚ
  deepText : String
  deepH : ℚ
  lightText : String
  lightH : ℚ
  remText : String
  remH : ℚ
  awakeText : String
  awakeH : ℚ
  restingHR : ℤ
  sleepGoal : Bool
  deriving DecidableEq, Repr

structure SleepState where
  docs : List SleepPage
  nextId : ℕ
  created : ℕ
  skipped : ℕ
  errors : ℕ
  logs : List String
  deriving DecidableEq, Repr

def sleepOnError (s : SleepState) (e : PyError) : SleepState :=
  { s with
    errors := s.errors + 1
    logs := if strContains e.msg "404" then s.logs else s.logs ++ [e.msg] }

/-- The page created for one slept date (sync.py 847-866). -/
def build_sleep_page (nextId : ℕ) (date_str : String) (daily : SleepDTO) : SleepPage :=
  let deep := daily.deepSleepSeconds.getD 0
  let light := daily.lightSleepSeconds.getD 0
  let rem := daily.remSleepSeconds.getD 0
  let awake := daily.awakeSleepSeconds.getD 0
  let total := deep + light + rem
  { id := nextId
  , dateTitle := date_str
  , longDate := date_str
  , times := format_sleep_times daily.sleepStartTimestampLocal daily.sleepEndTimestampLocal
  , totalSleepText := format_duration (total : ℚ)
  , totalSleepH := seconds_to_hours (total : ℚ)
  , deepText := format_duration (deep : ℚ)
  , deepH := seconds_to_hours (deep : ℚ)
  , lightText := format_duration (light : ℚ)
  , lightH := seconds_to_hours (light : ℚ)
  , remText := format_duration (rem : ℚ)
  , remH := seconds_to_hours (rem : ℚ)
  , awakeText := format_duration (awake : ℚ)
  , awakeH := seconds_to_hours (awake : ℚ)
  , restingHR := daily.restingHeartRate.getD 0
  , sleepGoal := decide (25200 ≤ total) }

/-- One iteration of the per-date loop of `sync_sleep_data`: `Except.ok
none` models both a falsy response and a response without `dailySleepDTO`. -/
def sleep_day_step (env : Env) (s : SleepState) (date_str : String) : SleepState :=
  match env.sleepQueryErr date_str with
  | some e => sleepOnError s e
  | none =>
    if s.docs.any (fun d => d.longDate = date_str) then
      { s with skipped := s.skipped + 1 }
    else
      match env.sleepFetch date_str with
      | .error e => sleepOnError s e
      | .ok none => { s with skipped := s.skipped + 1 }
      | .ok (some daily) =>
        let total := daily.deepSleepSeconds.getD 0 + daily.lightSleepSeconds.getD 0
          + daily.remSleepSeconds.getD 0
        if 0 < total then
          match env.sleepCreateErr date_str with
          | some e => sleepOnError s e
          | none =>
            { s with
              docs := s.docs ++ [build_sleep_page s.nextId date_str daily]
              nextId := s.nextId + 1
              created := s.created + 1 }
        else { s with skipped := s.skipped + 1 }

def sync_sleep_data_run (env : Env) : SleepState → List String → SleepState
  | s, [] => s
  | s, d :: ds => sync_sleep_data_run env (sleep_day_step env s d) ds

/-! ## Aggregates and concrete fixtures -/

def sumCounters (c : Counters) : ℕ :=
  c.created + c.updated + c.unchanged + c.skipped + c.errors

def sumStepsCounters (s : StepsState) : ℕ := s.created + s.skipped + s.errors

def sumSleepCounters (s : SleepState) : ℕ := s.created + s.skipped + s.errors

def emptyProps : NotionProps :=
  ⟨none, none, none, none, none, none, none, none, none,
   none, none, none, none, none, none, none, none, none⟩

def emptyStore : Store := ⟨[], 0⟩

/-- A stored page agreeing with `actDur603` on every compared field except
duration: stored 10.00 min vs incoming 603 s = 10.05 min. -/
def propsDur10 : NotionProps :=
  { emptyProps with
    garminId := some 5
    activityType := some "Running"
    subactivityType := some "Running"
    activityName := some "X"
    distanceKm := some 0
    durationMin := some 10
    calories := some 0
    avgPace := some ""
    avgPower := some 0
    maxPower := some 0
    trainingEffect := some "Unknown"
    aerobic := some 0
    aerobicEffect := some "Unknown"
    anaerobic := some 0
    anaerobicEffect := some "Unknown"
    pr := some false
    fav := some false }

def actDur603 : Activity :=
  { emptyActivity with
    activityId := some 5
    typeKey := some "running"
    activityName := some "X"
    duration := some 603 }

def actWithId : Activity := { emptyActivity with activityId := some 42 }

/-- Two stored pages carrying the same Garmin ID (a collision). -/
def dupStore : Store :=
  ⟨[⟨0, { emptyProps with garminId := some 9 }⟩, ⟨1, { emptyProps with garminId := some 9 }⟩], 2⟩

def actGarmin9 : Activity := { emptyActivity with activityId := some 9 }

def schemaErr : PyError := ⟨"Select option does not exist"⟩

def otherErr : PyError := ⟨"HTTPError 500 internal"⟩

/-- Every update call fails with a schema-class error. -/
def envUpdSchemaFail : Env := { envAllOk with updateErr := fun _ _ => some schemaErr }

/-- The first create attempt fails with a schema-class error; the degraded
retry (categoricals "Unknown") succeeds. -/
def envCreateRetryOk : Env :=
  { envAllOk with
    createErr := fun p => if p.activityType = some "Unknown" then none else some schemaErr }

def pgDur10 : NotionPage := ⟨3, propsDur10⟩

/-- A well-formed single-record batch: external id, parsable timestamp. -/
def actRun77 : Activity :=
  { emptyActivity with
    activityId := some 77
    startTimeGMT := some "2026-01-28T18:37:00Z"
    activityName := some "Morning Run"
    typeKey := some "running"
    distance := some 5000
    duration := some 1800 }

/-- Two id-less records landing on the same fallback key (same local day,
type and name) with different distances. -/
def actNoId5k : Activity :=
  { emptyActivity with
    startTimeGMT := some "2026-01-28T18:37:00Z"
    activityName := some "X"
    typeKey := some "running"
    distance := some 5000 }

def actNoId6k : Activity := { actNoId5k with distance := some 6000 }

/-- Run the activities reconciliation twice over the same batch, starting
from `store`, in an environment whose collaborator calls all succeed;
returns the second run's final state. -/
def runTwice (store : Store) (batch : List Activity) : Option SyncState :=
  match sync_activities_run envAllOk (initState store) batch with
  | .error _ => none
  | .ok s1 =>
    match sync_activities_run envAllOk (initState s1.store) batch with
    | .error _ => none
    | .ok s2 => some s2

/-- The activities id-lookup query raises on every call. -/
def envIdQueryFail : Env := { envAllOk with idQueryErr := fun _ => some otherErr }

def err404 : PyError := ⟨"HTTPError: 404 Client Error: Not Found"⟩

/-- The per-date steps fetch raises a not-found error for every date. -/
def envSteps404 : Env := { envAllOk with stepsFetch := fun _ => .error err404 }

/-- The per-date sleep fetch raises a not-found error for every date. -/
def envSleep404 : Env := { envAllOk with sleepFetch := fun _ => .error err404 }

def stepsDataZero : StepsData := ⟨some 0, some 0, some 6000⟩

/-- A steps fetch reporting a zero step count for every date. -/
def envStepsZero : Env := { envAllOk with stepsFetch := fun _ => .ok (some stepsDataZero) }

def sleepDTOZero : SleepDTO := ⟨some 0, some 0, some 0, some 600, some 52, none, none⟩

/-- A sleep fetch whose stage seconds sum to zero for every date. -/
def envSleepZero : Env := { envAllOk with sleepFetch := fun _ => .ok (some sleepDTOZero) }

def stepsState0 : StepsState := ⟨[], 0, 0, 0, 0, []⟩

def sleepState0 : SleepState := ⟨[], 0, 0, 0, 0, []⟩

def stepsPageJan : StepsPage := ⟨0, "2026-01-28", 100, 2/5, 6000⟩

def stepsStateWithJan : StepsState := ⟨[stepsPageJan], 1, 0, 0, 0, []⟩

/-- A steps fetch returning real data for every date. -/
def envStepsData : Env :=
  { envAllOk with stepsFetch := fun _ => .ok (some ⟨some 500, some 1000, some 6000⟩) }

def sleepDTOJan : SleepDTO :=
  ⟨some 3600, some 14400, some 5400, some 600, some 52,
   some "2026-01-27T23:12:00.0", some "2026-01-28T06:42:00.0"⟩

def envSleepData : Env :=
  { envAllOk with sleepFetch := fun _ => .ok (some sleepDTOJan) }

def sleepPageJan : SleepPage := build_sleep_page 0 "2026-01-28" sleepDTOJan

def sleepStateWithJan : SleepState := ⟨[sleepPageJan], 1, 0, 0, 0, []⟩

/-- The driver's fallback lookup term for a record, as it appears inside
`sync_step`. -/
def fallback_for (env : Env) (store : Store) (r : Activity) : Except PyError LookupResult :=
  activity_exists_by_date_fallback env store r.startTimeGMT
    (format_activity_type (r.typeKey.getD "Unknown") (format_entertainment r.activityName)).1
    (format_entertainment r.activityName)

/-! # Theorems

One theorem per claim (with a witness when the statement carries
hypotheses, and a counterexample where the claim fails on the code),
preceded by the helper lemmas they share.
-/

/-! ## Helper lemmas -/

theorem approx_equal_self (a eps : ℚ) (h : 0 ≤ eps) : approx_equal a a eps = true := by
  simp [approx_equal, ratAbs, h]

/-- What create writes never triggers the sync.py change detector against
the record it was written from. -/
theorem needs_update_build_props_false (r : Activity) (aname atype asub : String) :
    activity_needs_update (build_props r aname atype asub) r = false := by
  unfold activity_needs_update build_props
  cases h : r.activityId <;>
    simp [h, approx_equal_self, roundTo]

/-- What update writes never triggers the sync.py change detector against
the record it was written from. -/
theorem needs_update_merge_props_false (old : NotionProps) (r : Activity) (atype asub : String) :
    activity_needs_update (merge_update_props old r atype asub) r = false := by
  unfold activity_needs_update merge_update_props build_props
  cases h : r.activityId <;>
    simp [h, approx_equal_self, roundTo]

/-! ## C5 -/

/-- C5: a stored document whose Garmin ID property is missing, paired with
an incoming record carrying an external id, is flagged as needing update by
both change detectors, whatever the remaining fields hold. -/
theorem missing_garmin_id_forces_update (existing : NotionProps) (new : Activity) (g : ℤ)
    (hmiss : existing.garminId = none) (hnew : new.activityId = some g) :
    activity_needs_update existing new = true ∧ ga_activity_needs_update existing new = true := by
  constructor
  · unfold activity_needs_update
    simp [hmiss, hnew]
  · unfold ga_activity_needs_update
    simp [hmiss]

/-- C5 witness: the empty stored document against a record with id 42. -/
theorem missing_garmin_id_forces_update_witness :
    activity_needs_update emptyProps actWithId = true
      ∧ ga_activity_needs_update emptyProps actWithId = true :=
  missing_garmin_id_forces_update emptyProps actWithId 42 rfl rfl

/-! ## C4 -/

/-- C4 counterexample: the stored duration differs from the incoming one by
0.05 min -- beyond the 0.01 tolerance the claim states -- yet sync.py's
change detector reports no update needed (its duration tolerance is 0.1 and
it compares no other measurement field). -/
theorem change_detector_tolerance_counterexample :
    approx_equal (propsDur10.durationMin.getD 0)
        (roundTo 2 (actDur603.duration.getD 0 / 60)) (1/100) = false
      ∧ activity_needs_update propsDur10 actDur603 = false := by
  constructor
  · with_unfolding_all decide
  · with_unfolding_all decide

/-- C4 (amended): garmin-activities.py's detector compares distance and
duration with tolerance 0.01, the power values and the aerobic/anaerobic
scores with tolerance 0.1, and the pace string, calorie integer, select
fields (training-effect labels and the activity-type select included) and
boolean flags exactly, any violation forcing `true`; sync.py's detector
compares only the id backfill (missing stored Garmin ID with an incoming
id forcing `true`), distance (tolerance 0.01) and duration (tolerance
0.1), ignoring every other field. -/
theorem change_detector_tolerances (existing : NotionProps) (new : Activity) :
    (approx_equal (safe_get_number existing.distanceKm 0)
        (roundTo 2 (new.distance.getD 0 / 1000)) (1/100) = false →
      ga_activity_needs_update existing new = true)
    ∧ (approx_equal (safe_get_number existing.durationMin 0)
        (roundTo 2 (new.duration.getD 0 / 60)) (1/100) = false →
      ga_activity_needs_update existing new = true)
    ∧ (safe_get_number existing.calories 0 ≠ (roundInt (new.calories.getD 0) : ℚ) →
      ga_activity_needs_update existing new = true)
    ∧ (safe_get_rich_text existing.avgPace "" ≠ format_pace (new.averageSpeed.getD 0) →
      ga_activity_needs_update existing new = true)
    ∧ (approx_equal (safe_get_number existing.avgPower 0)
        (roundTo 1 (new.avgPower.getD 0)) (1/10) = false →
      ga_activity_needs_update existing new = true)
    ∧ (approx_equal (safe_get_number existing.maxPower 0)
        (roundTo 1 (new.maxPower.getD 0)) (1/10) = false →
      ga_activity_needs_update existing new = true)
    ∧ (safe_get_select existing.trainingEffect "Unknown"
        ≠ format_training_effect (new.trainingEffectLabel.getD "Unknown") →
      ga_activity_needs_update existing new = true)
    ∧ (approx_equal (safe_get_number existing.aerobic 0)
        (roundTo 1 (new.aerobicTrainingEffect.getD 0)) (1/10) = false →
      ga_activity_needs_update existing new = true)
    ∧ (safe_get_select existing.aerobicEffect "Unknown"
        ≠ format_training_message (new.aerobicTrainingEffectMessage.getD "Unknown") →
      ga_activity_needs_update existing new = true)
    ∧ (approx_equal (safe_get_number existing.anaerobic 0)
        (roundTo 1 (new.anaerobicTrainingEffect.getD 0)) (1/10) = false →
      ga_activity_needs_update existing new = true)
    ∧ (safe_get_select existing.anaerobicEffect "Unknown"
        ≠ format_training_message (new.anaerobicTrainingEffectMessage.getD "Unknown") →
      ga_activity_needs_update existing new = true)
    ∧ (safe_get_checkbox existing.pr false ≠ new.pr.getD false →
      ga_activity_needs_update existing new = true)
    ∧ (safe_get_checkbox existing.fav false ≠ new.favorite.getD false →
      ga_activity_needs_update existing new = true)
    ∧ (safe_get_select existing.activityType ""
        ≠ (format_activity_type (new.typeKey.getD "Unknown")
            (strLower (new.activityName.getD ""))).1 →
      ga_activity_needs_update existing new = true)
    ∧ (existing.garminId = none ∧ new.activityId ≠ none →
      activity_needs_update existing new = true)
    ∧ (approx_equal (existing.distanceKm.getD 0)
        (roundTo 2 (new.distance.getD 0 / 1000)) (1/100) = false →
      activity_needs_update existing new = true)
    ∧ (approx_equal (existing.durationMin.getD 0)
        (roundTo 2 (new.duration.getD 0 / 60)) (1/10) = false →
      activity_needs_update existing new = true)
    ∧ (¬(existing.garminId = none ∧ new.activityId ≠ none) →
      approx_equal (existing.distanceKm.getD 0)
        (roundTo 2 (new.distance.getD 0 / 1000)) (1/100) = true →
      approx_equal (existing.durationMin.getD 0)
        (roundTo 2 (new.duration.getD 0 / 60)) (1/10) = true →
      activity_needs_update existing new = false) := by
  refine ⟨?_, ?_, ?_, ?_, ?_, ?_, ?_, ?_, ?_, ?_, ?_, ?_, ?_, ?_, ?_, ?_, ?_, ?_⟩ <;>
    intro h
  case _ => simp only [one_div] at h; unfold ga_activity_needs_update; split <;> simp [h]
  case _ => simp only [one_div] at h; unfold ga_activity_needs_update; split <;> simp [h]
  case _ => unfold ga_activity_needs_update; split <;> simp [h]
  case _ => unfold ga_activity_needs_update; split <;> simp [h]
  case _ => simp only [one_div] at h; unfold ga_activity_needs_update; split <;> simp [h]
  case _ => simp only [one_div] at h; unfold ga_activity_needs_update; split <;> simp [h]
  case _ => unfold ga_activity_needs_update; split <;> simp [h]
  case _ => simp only [one_div] at h; unfold ga_activity_needs_update; split <;> simp [h]
  case _ => unfold ga_activity_needs_update; split <;> simp [h]
  case _ => simp only [one_div] at h; unfold ga_activity_needs_update; split <;> simp [h]
  case _ => unfold ga_activity_needs_update; split <;> simp [h]
  case _ => unfold ga_activity_needs_update; split <;> simp [h]
  case _ => unfold ga_activity_needs_update; split <;> simp [h]
  case _ => unfold ga_activity_needs_update; split <;> simp [h]
  case _ => unfold activity_needs_update; rw [if_pos h]
  case _ => simp only [one_div] at h; unfold activity_needs_update; split <;> simp [h]
  case _ => simp only [one_div] at h; unfold activity_needs_update; split <;> simp [h]
  case _ =>
    intro h1 h2
    simp only [one_div] at h1 h2
    unfold activity_needs_update
    simp [h, h1, h2]

/-- C4 witness: a calorie difference alone, or an Activity Type select
mismatch alone, flips the garmin-activities detector to `true`; a missing
stored Garmin ID with an incoming id flips sync.py's; the all-defaults
pair stays `false` under sync.py's. -/
theorem change_detector_tolerances_witness :
    ga_activity_needs_update { propsDur10 with calories := some 33 } actDur603 = true
      ∧ ga_activity_needs_update { propsDur10 with activityType := some "Walking" } actDur603 = true
      ∧ activity_needs_update emptyProps actDur603 = true
      ∧ activity_needs_update propsDur10 actDur603 = false := by
  refine ⟨?_, ?_, ?_, ?_⟩
  · exact (change_detector_tolerances { propsDur10 with calories := some 33 } actDur603).2.2.1
      (by with_unfolding_all decide)
  · exact (change_detector_tolerances { propsDur10 with activityType := some "Walking" }
      actDur603).2.2.2.2.2.2.2.2.2.2.2.2.2.1 (by with_unfolding_all decide)
  · exact (change_detector_tolerances emptyProps actDur603).2.2.2.2.2.2.2.2.2.2.2.2.2.2.1
      ⟨rfl, by with_unfolding_all decide⟩
  · exact (change_detector_tolerances propsDur10
        actDur603).2.2.2.2.2.2.2.2.2.2.2.2.2.2.2.2.2
      (by with_unfolding_all decide) (by with_unfolding_all decide) (by with_unfolding_all decide)

/-! ## C3 -/

/-- C3 counterexample: sync.py's update executor, facing a schema-class
store rejection, performs exactly one call and reports terminal failure --
it never retries with "Unknown" categoricals as the claim states. -/
theorem update_retry_counterexample :
    is_schema_error schemaErr = true
      ∧ update_activity envUpdSchemaFail emptyStore pgDur10 actDur603 =
          ⟨false, emptyStore,
           [.updateCall pgDur10.id (update_props pgDur10.props actDur603)]⟩ := by
  constructor
  · with_unfolding_all decide
  · with_unfolding_all decide

/-- C3 (amended): both create executors and garmin-activities.py's update
executor retry exactly once with category and subcategory forced to
"Unknown" after a schema-class rejection (a second failure is terminal,
a non-schema failure is terminal immediately); sync.py's update executor
never retries -- any failure there is reported immediately. -/
theorem degraded_schema_retry (env : Env) (store : Store) (pg : NotionPage) (r : Activity)
    (e : PyError) :
    ((create_retry_props r).activityType = some "Unknown"
      ∧ (create_retry_props r).subactivityType = some "Unknown")
    ∧ (env.createErr (create_props r) = some e → is_schema_error e = true →
        (create_activity env store r).calls =
            [.createCall (create_props r), .createCall (create_retry_props r)]
          ∧ ((create_activity env store r).success = true
              ↔ env.createErr (create_retry_props r) = none))
    ∧ (env.createErr (create_props r) = some e → is_schema_error e = false →
        create_activity env store r = ⟨false, store, [.createCall (create_props r)]⟩)
    ∧ (env.createErr (create_props r) = some e → ga_is_schema_error e = true →
        (ga_create_activity env store r).calls =
            [.createCall (create_props r), .createCall (create_retry_props r)]
          ∧ ((ga_create_activity env store r).success = true
              ↔ env.createErr (create_retry_props r) = none))
    ∧ (env.createErr (create_props r) = some e → ga_is_schema_error e = false →
        ga_create_activity env store r = ⟨false, store, [.createCall (create_props r)]⟩)
    ∧ ((ga_update_retry_props pg.props r).activityType = some "Unknown"
      ∧ (ga_update_retry_props pg.props r).subactivityType = some "Unknown")
    ∧ (env.updateErr pg.id (update_props pg.props r) = some e → ga_is_schema_error e = true →
        (ga_update_activity env store pg r).calls =
            [.updateCall pg.id (update_props pg.props r),
             .updateCall pg.id (ga_update_retry_props pg.props r)]
          ∧ ((ga_update_activity env store pg r).success = true
              ↔ env.updateErr pg.id (ga_update_retry_props pg.props r) = none))
    ∧ (env.updateErr pg.id (update_props pg.props r) = some e → ga_is_schema_error e = false →
        ga_update_activity env store pg r =
          ⟨false, store, [.updateCall pg.id (update_props pg.props r)]⟩)
    ∧ (env.updateErr pg.id (update_props pg.props r) = some e →
        update_activity env store pg r =
          ⟨false, store, [.updateCall pg.id (update_props pg.props r)]⟩) := by
  refine ⟨⟨rfl, rfl⟩, ?_, ?_, ?_, ?_, ⟨rfl, rfl⟩, ?_, ?_, ?_⟩
  · intro h1 h2
    simp only [create_activity]
    rw [h1]
    cases henv : env.createErr (create_retry_props r) <;> simp [h2, henv]
  · intro h1 h2
    simp only [create_activity]
    rw [h1]
    simp [h2]
  · intro h1 h2
    simp only [ga_create_activity]
    rw [h1]
    cases henv : env.createErr (create_retry_props r) <;> simp [h2, henv]
  · intro h1 h2
    simp only [ga_create_activity]
    rw [h1]
    simp [h2]
  · intro h1 h2
    simp only [ga_update_activity]
    rw [h1]
    cases henv : env.updateErr pg.id (ga_update_retry_props pg.props r) <;> simp [h2, henv]
  · intro h1 h2
    simp only [ga_update_activity]
    rw [h1]
    simp [h2]
  · intro h1
    simp only [update_activity]
    rw [h1]

/-- C3 witness: a create whose first attempt is rejected with a
schema-class error and whose "Unknown"-degraded retry succeeds performs
exactly those two calls and reports success. -/
theorem degraded_schema_retry_witness :
    (create_activity envCreateRetryOk emptyStore actRun77).calls =
        [.createCall (create_props actRun77), .createCall (create_retry_props actRun77)]
      ∧ (create_activity envCreateRetryOk emptyStore actRun77).success = true := by
  have h := (degraded_schema_retry envCreateRetryOk emptyStore pgDur10 actRun77 schemaErr).2.1
    (by with_unfolding_all decide) (by with_unfolding_all decide)
  exact ⟨h.1, h.2.mpr (by with_unfolding_all decide)⟩

/-! ## C2 -/

/-- C2: when identity resolution is ambiguous -- more than one match by
Garmin ID, or none by id and more than one by the date/type/name fallback
-- the driver performs no create or update call for the record, leaves the
store untouched, and increments exactly the skipped-collision counter,
by one. -/
theorem ambiguous_never_writes (env : Env) (s : SyncState) (r : Activity) (ids : List ℕ)
    (h : activity_exists_by_garmin_id env s.store r.activityId = .ok (.multiple ids)
      ∨ (activity_exists_by_garmin_id env s.store r.activityId = .ok .notFound
        ∧ activity_exists_by_date_fallback env s.store r.startTimeGMT
            (format_activity_type (r.typeKey.getD "Unknown")
              (format_entertainment r.activityName)).1
            (format_entertainment r.activityName) = .ok (.multiple ids))) :
    sync_step env s r = .ok { s with counters.skipped := s.counters.skipped + 1 } := by
  simp only [sync_step]
  rcases h with h | ⟨h1, h2⟩
  · rw [h]
  · rw [h1, h2]

/-- C2 witness: a store holding two pages with Garmin ID 9 against a record
with id 9 is skipped with no write call. -/
theorem ambiguous_never_writes_witness :
    sync_step envAllOk (initState dupStore) actGarmin9 = .ok ⟨dupStore, ⟨0, 0, 0, 1, 0⟩, []⟩ :=
  ambiguous_never_writes envAllOk (initState dupStore) actGarmin9 [0, 1]
    (Or.inl (by with_unfolding_all decide))

/-! ## C6 -/

/-- C6: the three source timestamp shapes parse to the identical UTC
instant (2026-01-28, 18:37:00 UTC); every input string yields either a
zone-aware instant or `none` (the model is total, mirroring the code's
catch-all parsing tiers); and a parsed instant carrying no explicit zone is
assigned UTC (offset 0). -/
theorem timestamp_parser_contract :
    (parse_utc_datetime_str "2026-01-28T18:37:00Z" = some ⟨20481, 67020, some 0⟩
      ∧ parse_utc_datetime_str "2026-01-28T18:37:00.0" = some ⟨20481, 67020, some 0⟩
      ∧ parse_utc_datetime_str "2026-01-28T18:37:00+00:00" = some ⟨20481, 67020, some 0⟩)
    ∧ (∀ s : String, parse_utc_datetime_str s = none
        ∨ ∃ dt, parse_utc_datetime_str s = some dt ∧ dt.off.isSome)
    ∧ (∀ (s : String) (dt : PyDateTime), s ≠ "" →
        fromisoformat (preprocessTimestamp s) = some dt → dt.off = none →
        parse_utc_datetime_str s = some { dt with off := some 0 }) := by
  refine ⟨⟨by decide, by decide, by decide⟩, ?_, ?_⟩
  · intro s
    by_cases hs : s = ""
    · left
      simp [parse_utc_datetime_str, hs]
    · cases hfi : fromisoformat (preprocessTimestamp s) with
      | some dt =>
        cases hoff : dt.off with
        | none =>
          right
          exact ⟨{ dt with off := some 0 },
            by simp [parse_utc_datetime_str, hs, hfi, hoff], rfl⟩
        | some o =>
          right
          exact ⟨dt, by simp [parse_utc_datetime_str, hs, hfi, hoff], by simp [hoff]⟩
      | none =>
        cases hsp : strptime19 (preprocessTimestamp s) with
        | none =>
          left
          simp [parse_utc_datetime_str, hs, hfi, hsp]
        | some dt =>
          cases hoff : dt.off with
          | none =>
            right
            exact ⟨{ dt with off := some 0 },
              by simp [parse_utc_datetime_str, hs, hfi, hsp, hoff], rfl⟩
          | some o =>
            right
            exact ⟨dt, by simp [parse_utc_datetime_str, hs, hfi, hsp, hoff], by simp [hoff]⟩
  · intro s dt hs hfi hoff
    simp [parse_utc_datetime_str, hs, hfi, hoff]

/-- C6 witness: the bare truncated-seconds string carries no zone and is
assumed UTC by the parser. -/
theorem timestamp_parser_contract_witness :
    parse_utc_datetime_str "2026-01-28T18:37:00" = some ⟨20481, 67020, some 0⟩ :=
  timestamp_parser_contract.2.2 "2026-01-28T18:37:00" ⟨20481, 67020, none⟩
    (by decide) (by decide) rfl

/-! ## C7 -/

/-- C7 counterexample: on an unparsable raw timestamp, sync.py's
`get_local_date_range` returns no window at all (`(None, None)`) instead of
a window sliced from the leading calendar date; garmin-activities.py's
version raises out of the fallback when the text before `T` is not a valid
date; and even on a parsable timestamp sync.py's window ends one second
before the next local midnight rather than at it. -/
theorem local_day_window_counterexample :
    get_local_date_range (some "garbage") = none
      ∧ ga_get_local_date_range "garbage" = .error ()
      ∧ (get_local_date_range (some "2026-01-28T18:37:00Z")).map (fun w => w.2) =
          some ⟨20481, 86399, some 3600⟩ := by
  refine ⟨by with_unfolding_all rfl, by with_unfolding_all rfl, by with_unfolding_all rfl⟩

theorem astimezone_tod_bounds (dt : PyDateTime) :
    0 ≤ (astimezoneBrussels dt).tod ∧ (astimezoneBrussels dt).tod < 86400 := by
  unfold astimezoneBrussels
  exact ⟨Int.emod_nonneg _ (by norm_num), Int.emod_lt_of_pos _ (by norm_num)⟩

theorem addWallSeconds_day (d : ℤ) (o : Option ℤ) :
    addWallSeconds ⟨d, 0, o⟩ 86400 = ⟨d + 1, 0, o⟩ := by
  show (⟨(d * 86400 + 0 + 86400) / 86400, (d * 86400 + 0 + 86400) % 86400, o⟩ : PyDateTime) = _
  have h1 : (d * 86400 + 0 + 86400) / 86400 = d + 1 := by omega
  have h2 : (d * 86400 + 0 + 86400) % 86400 = 0 := by omega
  rw [h1, h2]

theorem addWallSeconds_back (d : ℤ) (o : Option ℤ) :
    addWallSeconds (addWallSeconds ⟨d, 0, o⟩ 86400) (-1) = ⟨d, 86399, o⟩ := by
  rw [addWallSeconds_day]
  show (⟨((d + 1) * 86400 + 0 + -1) / 86400, ((d + 1) * 86400 + 0 + -1) % 86400, o⟩
    : PyDateTime) = _
  have h1 : ((d + 1) * 86400 + 0 + -1) / 86400 = d := by omega
  have h2 : ((d + 1) * 86400 + 0 + -1) % 86400 = 86399 := by omega
  rw [h1, h2]

/-- C7 (amended): for a parsable raw timestamp, garmin-activities.py's
window is the half-open local day `[midnight, next midnight)` containing
the instant, while sync.py's closes one second early (it is consumed with
inclusive bounds); for an unparsable one, sync.py returns no window, and
garmin-activities.py slices the text before `T` -- producing a date-only
window when that text is a valid calendar date, and raising otherwise. -/
theorem local_day_window (raw : String) :
    (∀ dt loc, parse_utc_datetime_str raw = some dt → loc = astimezoneBrussels dt →
      ga_get_local_date_range raw = .ok (⟨loc.day, 0, loc.off⟩, ⟨loc.day + 1, 0, loc.off⟩)
      ∧ toUTCSeconds ⟨loc.day, 0, loc.off⟩ ≤ toUTCSeconds loc
      ∧ toUTCSeconds loc < toUTCSeconds ⟨loc.day + 1, 0, loc.off⟩
      ∧ get_local_date_range (some raw) =
          some (⟨loc.day, 0, loc.off⟩, ⟨loc.day, 86399, loc.off⟩)
      ∧ toUTCSeconds (⟨loc.day, 86399, loc.off⟩ : PyDateTime) =
          toUTCSeconds (⟨loc.day + 1, 0, loc.off⟩ : PyDateTime) - 1)
    ∧ (parse_utc_datetime_str raw = none →
      get_local_date_range (some raw) = none
      ∧ ((∃ d, fromisoformat (raw.data.takeWhile (· ≠ 'T')) = some d
            ∧ ga_get_local_date_range raw = .ok (d, ⟨(addWallSeconds d 86400).day, 0, none⟩))
        ∨ (fromisoformat (raw.data.takeWhile (· ≠ 'T')) = none
            ∧ ga_get_local_date_range raw = .error ()))) := by
  constructor
  · intro dt loc hp hl
    subst hl
    refine ⟨?_, ?_, ?_, ?_, ?_⟩
    · simp only [ga_get_local_date_range, hp]
      rw [addWallSeconds_day]
    · have hb := astimezone_tod_bounds dt
      simp only [toUTCSeconds]
      omega
    · have hb := astimezone_tod_bounds dt
      simp only [toUTCSeconds]
      omega
    · simp only [get_local_date_range, parse_utc_datetime, hp]
      rw [addWallSeconds_back]
    · simp only [toUTCSeconds]
      omega
  · intro hp
    constructor
    · simp [get_local_date_range, parse_utc_datetime, hp]
    · cases hfi : fromisoformat (raw.data.takeWhile (· ≠ 'T')) with
      | some d =>
        left
        refine ⟨d, rfl, ?_⟩
        simp only [ga_get_local_date_range, hp]
        rw [hfi]
      | none =>
        right
        refine ⟨rfl, ?_⟩
        simp only [ga_get_local_date_range, hp]
        rw [hfi]

/-- C7 witness: the 18:37 UTC instant lands in the Brussels local day
2026-01-28, whose garmin-activities window is `[midnight, next midnight)`
and whose sync window ends at 23:59:59. -/
theorem local_day_window_witness :
    ga_get_local_date_range "2026-01-28T18:37:00Z" =
        .ok (⟨20481, 0, some 3600⟩, ⟨20482, 0, some 3600⟩)
      ∧ get_local_date_range (some "2026-01-28T18:37:00Z") =
        some (⟨20481, 0, some 3600⟩, ⟨20481, 86399, some 3600⟩) := by
  have h := (local_day_window "2026-01-28T18:37:00Z").1 ⟨20481, 67020, some 0⟩
    ⟨20481, 70620, some 3600⟩ (by decide) (by with_unfolding_all rfl)
  exact ⟨h.1, h.2.2.2.1⟩

/-! ## Driver evaluation lemmas -/

theorem create_activity_ok (env : Env) (store : Store) (r : Activity)
    (h : env.createErr (create_props r) = none) :
    create_activity env store r =
      ⟨true, store.addDoc (create_props r), [.createCall (create_props r)]⟩ := by
  simp only [create_activity]
  rw [h]

theorem update_activity_ok (env : Env) (store : Store) (pg : NotionPage) (r : Activity)
    (h : env.updateErr pg.id (update_props pg.props r) = none) :
    update_activity env store pg r =
      ⟨true, store.updateDoc pg.id (update_props pg.props r),
       [.updateCall pg.id (update_props pg.props r)]⟩ := by
  simp only [update_activity]
  rw [h]

theorem byId_ok (env : Env) (store : Store) (g : ℤ) (hq : env.idQueryErr g = none) :
    activity_exists_by_garmin_id env store (some g) =
      .ok (match store.docs.filter (matchesGarminId g) with
           | [] => .notFound
           | [p] => .unique p
           | ps => .multiple (ps.map (·.id))) := by
  simp only [activity_exists_by_garmin_id, hq]
  cases hf : store.docs.filter (matchesGarminId g) with
  | nil => rfl
  | cons a t => cases t <;> rfl

theorem fb_ok (env : Env) (store : Store) (ts : Option String) (ty nm : String)
    (rs re : PyDateTime) (hr : get_local_date_range ts = some (rs, re))
    (hq : env.fbQueryErr = none) :
    activity_exists_by_date_fallback env store ts ty nm =
      .ok (match store.docs.filter (matchesFallback rs re ty nm) with
           | [] => .notFound
           | [p] => .unique p
           | ps => .multiple (ps.map (·.id))) := by
  simp only [activity_exists_by_date_fallback, hr, hq]
  cases hf : store.docs.filter (matchesFallback rs re ty nm) with
  | nil => rfl
  | cons a t => cases t <;> rfl

theorem fb_none (env : Env) (store : Store) (ts : Option String) (ty nm : String)
    (hr : get_local_date_range ts = none) :
    activity_exists_by_date_fallback env store ts ty nm = .ok .notFound := by
  simp only [activity_exists_by_date_fallback]
  rw [hr]

theorem sync_step_eval_skip_byid (env : Env) (s : SyncState) (r : Activity) (ids : List ℕ)
    (h : activity_exists_by_garmin_id env s.store r.activityId = .ok (.multiple ids)) :
    sync_step env s r = .ok { s with counters.skipped := s.counters.skipped + 1 } := by
  simp only [sync_step]
  rw [h]

theorem sync_step_eval_skip_fb (env : Env) (s : SyncState) (r : Activity) (ids : List ℕ)
    (h0 : activity_exists_by_garmin_id env s.store r.activityId = .ok .notFound)
    (h1 : fallback_for env s.store r = .ok (.multiple ids)) :
    sync_step env s r = .ok { s with counters.skipped := s.counters.skipped + 1 } := by
  simp only [sync_step]
  rw [h0]
  simp only [fallback_for] at h1
  rw [h1]

theorem sync_step_eval_unique (env : Env) (s : SyncState) (r : Activity) (pg : NotionPage)
    (h : activity_exists_by_garmin_id env s.store r.activityId = .ok (.unique pg)) :
    sync_step env s r =
      if activity_needs_update pg.props r then
        (if (update_activity env s.store pg r).success then
          .ok ⟨(update_activity env s.store pg r).store,
            { s.counters with updated := s.counters.updated + 1 },
            s.events ++ (update_activity env s.store pg r).calls⟩
        else
          .ok ⟨(update_activity env s.store pg r).store,
            { s.counters with errors := s.counters.errors + 1 },
            s.events ++ (update_activity env s.store pg r).calls⟩)
      else .ok { s with counters.unchanged := s.counters.unchanged + 1 } := by
  simp only [sync_step]
  rw [h]

theorem sync_step_eval_fb_unique (env : Env) (s : SyncState) (r : Activity) (pg : NotionPage)
    (h0 : activity_exists_by_garmin_id env s.store r.activityId = .ok .notFound)
    (h1 : fallback_for env s.store r = .ok (.unique pg)) :
    sync_step env s r =
      if activity_needs_update pg.props r then
        (if (update_activity env s.store pg r).success then
          .ok ⟨(update_activity env s.store pg r).store,
            { s.counters with updated := s.counters.updated + 1 },
            s.events ++ (update_activity env s.store pg r).calls⟩
        else
          .ok ⟨(update_activity env s.store pg r).store,
            { s.counters with errors := s.counters.errors + 1 },
            s.events ++ (update_activity env s.store pg r).calls⟩)
      else .ok { s with counters.unchanged := s.counters.unchanged + 1 } := by
  simp only [sync_step]
  rw [h0]
  simp only [fallback_for] at h1
  rw [h1]

theorem sync_step_eval_create (env : Env) (s : SyncState) (r : Activity)
    (h0 : activity_exists_by_garmin_id env s.store r.activityId = .ok .notFound)
    (h1 : fallback_for env s.store r = .ok .notFound) :
    sync_step env s r =
      if (create_activity env s.store r).success then
        .ok ⟨(create_activity env s.store r).store,
          { s.counters with created := s.counters.created + 1 },
          s.events ++ (create_activity env s.store r).calls⟩
      else
        .ok ⟨(create_activity env s.store r).store,
          { s.counters with errors := s.counters.errors + 1 },
          s.events ++ (create_activity env s.store r).calls⟩ := by
  simp only [sync_step]
  rw [h0]
  simp only [fallback_for] at h1
  rw [h1]

theorem run_single_step (env : Env) (s0 s1 : SyncState) (r : Activity)
    (h : sync_activities_run env s0 [r] = .ok s1) :
    sync_step env s0 r = .ok s1 := by
  simp only [sync_activities_run] at h
  cases hs : sync_step env s0 r with
  | error e => rw [hs] at h; exact absurd h (by simp)
  | ok s' => rw [hs] at h; simp only [sync_activities_run] at h; exact h

theorem run_single_of_step (env : Env) (s0 s1 : SyncState) (r : Activity)
    (h : sync_step env s0 r = .ok s1) :
    sync_activities_run env s0 [r] = .ok s1 := by
  simp only [sync_activities_run, h]

/-- With queries succeeding, every step completes, adding exactly one to
the counter total. -/
theorem sync_step_ok (env : Env) (hid : ∀ g, env.idQueryErr g = none)
    (hfb : env.fbQueryErr = none) (s : SyncState) (r : Activity) :
    ∃ s', sync_step env s r = .ok s'
      ∧ sumCounters s'.counters = sumCounters s.counters + 1 := by
  have hby : ∃ lr, activity_exists_by_garmin_id env s.store r.activityId = .ok lr := by
    cases hgid : r.activityId with
    | none => exact ⟨.notFound, by simp [activity_exists_by_garmin_id]⟩
    | some g => exact ⟨_, byId_ok env s.store g (hid g)⟩
  have hfb' : ∃ lr, fallback_for env s.store r = .ok lr := by
    cases hr : get_local_date_range r.startTimeGMT with
    | none => exact ⟨.notFound, fb_none env s.store _ _ _ hr⟩
    | some rng => exact ⟨_, fb_ok env s.store _ _ _ rng.1 rng.2 (by rw [hr]) hfb⟩
  obtain ⟨lr, hby⟩ := hby
  cases lr with
  | multiple ids =>
    refine ⟨_, sync_step_eval_skip_byid env s r ids hby, ?_⟩
    simp [sumCounters]
    omega
  | unique pg =>
    by_cases hn : activity_needs_update pg.props r = true
    · cases hw : (update_activity env s.store pg r).success with
      | true =>
        have hstep : sync_step env s r = .ok ⟨(update_activity env s.store pg r).store,
            { s.counters with updated := s.counters.updated + 1 },
            s.events ++ (update_activity env s.store pg r).calls⟩ := by
          rw [sync_step_eval_unique env s r pg hby, hn, hw]
          simp
        exact ⟨_, hstep, by simp [sumCounters]; omega⟩
      | false =>
        have hstep : sync_step env s r = .ok ⟨(update_activity env s.store pg r).store,
            { s.counters with errors := s.counters.errors + 1 },
            s.events ++ (update_activity env s.store pg r).calls⟩ := by
          rw [sync_step_eval_unique env s r pg hby, hn, hw]
          simp
        exact ⟨_, hstep, by simp [sumCounters]; omega⟩
    · have hstep : sync_step env s r =
          .ok { s with counters.unchanged := s.counters.unchanged + 1 } := by
        rw [sync_step_eval_unique env s r pg hby, eq_false_of_ne_true hn]
        simp
      exact ⟨_, hstep, by simp [sumCounters]; omega⟩
  | notFound =>
    obtain ⟨lr2, hfb2⟩ := hfb'
    cases lr2 with
    | multiple ids =>
      refine ⟨_, sync_step_eval_skip_fb env s r ids hby hfb2, ?_⟩
      simp [sumCounters]
      omega
    | unique pg =>
      by_cases hn : activity_needs_update pg.props r = true
      · cases hw : (update_activity env s.store pg r).success with
        | true =>
          have hstep : sync_step env s r = .ok ⟨(update_activity env s.store pg r).store,
              { s.counters with updated := s.counters.updated + 1 },
              s.events ++ (update_activity env s.store pg r).calls⟩ := by
            rw [sync_step_eval_fb_unique env s r pg hby hfb2, hn, hw]
            simp
          exact ⟨_, hstep, by simp [sumCounters]; omega⟩
        | false =>
          have hstep : sync_step env s r = .ok ⟨(update_activity env s.store pg r).store,
              { s.counters with errors := s.counters.errors + 1 },
              s.events ++ (update_activity env s.store pg r).calls⟩ := by
            rw [sync_step_eval_fb_unique env s r pg hby hfb2, hn, hw]
            simp
          exact ⟨_, hstep, by simp [sumCounters]; omega⟩
      · have hstep : sync_step env s r =
            .ok { s with counters.unchanged := s.counters.unchanged + 1 } := by
          rw [sync_step_eval_fb_unique env s r pg hby hfb2, eq_false_of_ne_true hn]
          simp
        exact ⟨_, hstep, by simp [sumCounters]; omega⟩
    | notFound =>
      cases hw : (create_activity env s.store r).success with
      | true =>
        have hstep : sync_step env s r = .ok ⟨(create_activity env s.store r).store,
            { s.counters with created := s.counters.created + 1 },
            s.events ++ (create_activity env s.store r).calls⟩ := by
          rw [sync_step_eval_create env s r hby hfb2, hw]
          simp
        exact ⟨_, hstep, by simp [sumCounters]; omega⟩
      | false =>
        have hstep : sync_step env s r = .ok ⟨(create_activity env s.store r).store,
            { s.counters with errors := s.counters.errors + 1 },
            s.events ++ (create_activity env s.store r).calls⟩ := by
          rw [sync_step_eval_create env s r hby hfb2, hw]
          simp
        exact ⟨_, hstep, by simp [sumCounters]; omega⟩

/-- With queries succeeding, the whole run completes, the counters summing
to the batch length. -/
theorem sync_run_ok (env : Env) (hid : ∀ g, env.idQueryErr g = none)
    (hfb : env.fbQueryErr = none) (batch : List Activity) :
    ∀ s, ∃ s', sync_activities_run env s batch = .ok s'
      ∧ sumCounters s'.counters = sumCounters s.counters + batch.length := by
  induction batch with
  | nil => exact fun s => ⟨s, rfl, by simp⟩
  | cons r rs ih =>
    intro s
    obtain ⟨s1, hs1, hsum1⟩ := sync_step_ok env hid hfb s r
    obtain ⟨s2, hs2, hsum2⟩ := ih s1
    refine ⟨s2, ?_, ?_⟩
    · simp only [sync_activities_run, hs1, hs2]
    · rw [hsum2, hsum1]
      simp [List.length_cons]
      omega

/-! ## C9 -/

/-- C9 counterexample: a store failure inside the identity-resolution query
is not caught by the activities loop -- the run aborts instead of tallying
an error and continuing. -/
theorem run_abort_counterexample :
    sync_activities_run envIdQueryFail (initState emptyStore) [actRun77] = .error otherErr
      ∧ (sync_activities_run envIdQueryFail (initState emptyStore) [actRun77]).isOk = false := by
  constructor
  · with_unfolding_all rfl
  · with_unfolding_all rfl

/-- C9 (amended): with the resolution queries succeeding, the activities
run completes for every batch and every starting store, its five counters
summing to the batch length; a failed create or update is tallied as one
error and the loop continues; and the process reports failure exactly when
the total error count over the four syncs is nonzero.  (A query failure, by
contrast, aborts the run uncaught -- see the counterexample.) -/
theorem run_error_semantics (env : Env) (hid : ∀ g, env.idQueryErr g = none)
    (hfb : env.fbQueryErr = none) :
    (∀ batch store, ∃ s', sync_activities_run env (initState store) batch = .ok s'
        ∧ sumCounters s'.counters = batch.length)
    ∧ (∀ s r, activity_exists_by_garmin_id env s.store r.activityId = .ok .notFound →
        fallback_for env s.store r = .ok .notFound →
        (create_activity env s.store r).success = false →
        sync_step env s r = .ok ⟨(create_activity env s.store r).store,
          { s.counters with errors := s.counters.errors + 1 },
          s.events ++ (create_activity env s.store r).calls⟩)
    ∧ (∀ s r pg, activity_exists_by_garmin_id env s.store r.activityId = .ok (.unique pg) →
        activity_needs_update pg.props r = true →
        (update_activity env s.store pg r).success = false →
        sync_step env s r = .ok ⟨(update_activity env s.store pg r).store,
          { s.counters with errors := s.counters.errors + 1 },
          s.events ++ (update_activity env s.store pg r).calls⟩)
    ∧ (∀ e1 e2 e3 e4 : ℕ, main_exit_code e1 e2 e3 e4 = 1 ↔ e1 + e2 + e3 + e4 ≠ 0) := by
  refine ⟨?_, ?_, ?_, ?_⟩
  · intro batch store
    obtain ⟨s', hs', hsum⟩ := sync_run_ok env hid hfb batch (initState store)
    refine ⟨s', hs', ?_⟩
    rw [hsum]
    simp [initState, sumCounters]
  · intro s r h0 h1 hw
    rw [sync_step_eval_create env s r h0 h1, hw]
    simp
  · intro s r pg h0 h1 hw
    rw [sync_step_eval_unique env s r pg h0, h1, hw]
    simp
  · intro e1 e2 e3 e4
    unfold main_exit_code
    constructor
    · intro h
      split at h
      · omega
      · omega
    · intro h
      split
      · rfl
      · omega

/-- C9 witness: a clean single-record run completes with counters summing
to one. -/
theorem run_error_semantics_witness :
    ∃ s', sync_activities_run envAllOk (initState emptyStore) [actRun77] = .ok s'
      ∧ sumCounters s'.counters = 1 := by
  have h := (run_error_semantics envAllOk (fun _ => rfl) rfl).1 [actRun77] emptyStore
  simpa using h

/-! ## Per-date loop aggregation lemmas -/

theorem steps_day_step_sum (env : Env) (s : StepsState) (d : String) :
    sumStepsCounters (steps_day_step env s d) = sumStepsCounters s + 1 := by
  unfold steps_day_step
  cases hq : env.stepsQueryErr d with
  | some e => simp [stepsOnError, sumStepsCounters]; omega
  | none =>
    by_cases hd : s.docs.any (fun x => x.date = d) = true
    · simp [hd, sumStepsCounters]
      omega
    · simp only [eq_false_of_ne_true hd, Bool.false_eq_true, if_false]
      cases hf : env.stepsFetch d with
      | error e => simp [stepsOnError, sumStepsCounters]; omega
      | ok osd =>
        cases osd with
        | none => simp [sumStepsCounters]; omega
        | some sd =>
          by_cases hts : 0 < sd.totalSteps.getD 0
          · simp only [if_pos hts]
            cases hc : env.stepsCreateErr d with
            | some e => simp [stepsOnError, sumStepsCounters]; omega
            | none => simp [sumStepsCounters]; omega
          · simp only [if_neg hts]
            simp [sumStepsCounters]
            omega

theorem steps_run_sum (env : Env) (ds : List String) :
    ∀ s, sumStepsCounters (sync_daily_steps_run env s ds) = sumStepsCounters s + ds.length := by
  induction ds with
  | nil => intro s; simp [sync_daily_steps_run]
  | cons d ds ih =>
    intro s
    simp only [sync_daily_steps_run]
    rw [ih (steps_day_step env s d), steps_day_step_sum]
    simp
    omega

theorem sleep_day_step_sum (env : Env) (s : SleepState) (d : String) :
    sumSleepCounters (sleep_day_step env s d) = sumSleepCounters s + 1 := by
  unfold sleep_day_step
  cases hq : env.sleepQueryErr d with
  | some e => simp [sleepOnError, sumSleepCounters]; omega
  | none =>
    by_cases hd : s.docs.any (fun x => x.longDate = d) = true
    · simp [hd, sumSleepCounters]
      omega
    · simp only [eq_false_of_ne_true hd, Bool.false_eq_true, if_false]
      cases hf : env.sleepFetch d with
      | error e => simp [sleepOnError, sumSleepCounters]; omega
      | ok osd =>
        cases osd with
        | none => simp [sumSleepCounters]; omega
        | some dto =>
          by_cases hts : 0 < dto.deepSleepSeconds.getD 0 + dto.lightSleepSeconds.getD 0
              + dto.remSleepSeconds.getD 0
          · simp only [if_pos hts]
            cases hc : env.sleepCreateErr d with
            | some e => simp [sleepOnError, sumSleepCounters]; omega
            | none => simp [sumSleepCounters]; omega
          · simp only [if_neg hts]
            simp [sumSleepCounters]
            omega

theorem sleep_run_sum (env : Env) (ds : List String) :
    ∀ s, sumSleepCounters (sync_sleep_data_run env s ds) = sumSleepCounters s + ds.length := by
  induction ds with
  | nil => intro s; simp [sync_sleep_data_run]
  | cons d ds ih =>
    intro s
    simp only [sync_sleep_data_run]
    rw [ih (sleep_day_step env s d), sleep_day_step_sum]
    simp
    omega

/-! ## C8 -/

/-- C8 counterexample: a not-found (404) failure of the per-date steps
fetch is counted as an error, not as a skip -- the code only suppresses its
log line. -/
theorem not_found_date_counterexample :
    steps_day_step envSteps404 stepsState0 "2026-01-28" = ⟨[], 0, 0, 0, 1, []⟩
      ∧ (steps_day_step envSteps404 stepsState0 "2026-01-28").skipped = 0 := by
  constructor
  · rfl
  · rfl

/-- C8 (amended): any failure of a per-date fetch (including not-found)
increments the error counter -- a 404 merely has its log line suppressed,
in the steps and the sleep feed alike; "no data" skips only arise from an
empty response or a non-positive total (no step count, or no summed sleep
seconds), again in both feeds; and the loops always process every date to
completion, the counters summing to the number of dates. -/
theorem daily_fetch_error_handling (env : Env) (s : StepsState) (t : SleepState)
    (d : String) (e : PyError) :
    (env.stepsQueryErr d = none → s.docs.any (fun x => x.date = d) = false →
      env.stepsFetch d = .error e →
      steps_day_step env s d = stepsOnError s e
      ∧ (stepsOnError s e).errors = s.errors + 1
      ∧ (stepsOnError s e).skipped = s.skipped
      ∧ (strContains e.msg "404" = true → (stepsOnError s e).logs = s.logs))
    ∧ (env.stepsQueryErr d = none → s.docs.any (fun x => x.date = d) = false →
      env.stepsFetch d = .ok none →
      steps_day_step env s d = { s with skipped := s.skipped + 1 })
    ∧ (∀ sd, env.stepsQueryErr d = none → s.docs.any (fun x => x.date = d) = false →
      env.stepsFetch d = .ok (some sd) → sd.totalSteps.getD 0 ≤ 0 →
      steps_day_step env s d = { s with skipped := s.skipped + 1 })
    ∧ (∀ ds, sumStepsCounters (sync_daily_steps_run env s ds) = sumStepsCounters s + ds.length)
    ∧ (env.sleepQueryErr d = none → t.docs.any (fun x => x.longDate = d) = false →
      env.sleepFetch d = .error e →
      sleep_day_step env t d = sleepOnError t e
      ∧ (sleepOnError t e).errors = t.errors + 1
      ∧ (sleepOnError t e).skipped = t.skipped
      ∧ (strContains e.msg "404" = true → (sleepOnError t e).logs = t.logs))
    ∧ (env.sleepQueryErr d = none → t.docs.any (fun x => x.longDate = d) = false →
      env.sleepFetch d = .ok none →
      sleep_day_step env t d = { t with skipped := t.skipped + 1 })
    ∧ (∀ dto, env.sleepQueryErr d = none → t.docs.any (fun x => x.longDate = d) = false →
      env.sleepFetch d = .ok (some dto) →
      dto.deepSleepSeconds.getD 0 + dto.lightSleepSeconds.getD 0
        + dto.remSleepSeconds.getD 0 ≤ 0 →
      sleep_day_step env t d = { t with skipped := t.skipped + 1 })
    ∧ (∀ ds, sumSleepCounters (sync_sleep_data_run env t ds) = sumSleepCounters t + ds.length) := by
  refine ⟨?_, ?_, ?_, fun ds => steps_run_sum env ds s, ?_, ?_, ?_,
    fun ds => sleep_run_sum env ds t⟩
  · intro hq hd hf
    refine ⟨?_, rfl, rfl, ?_⟩
    · unfold steps_day_step
      rw [hq, hd, hf]
      simp
    · intro h404
      simp [stepsOnError, h404]
  · intro hq hd hf
    unfold steps_day_step
    rw [hq, hd, hf]
    simp
  · intro sd hq hd hf hts
    unfold steps_day_step
    rw [hq, hd, hf]
    simp [not_lt.mpr hts]
  · intro hq hd hf
    refine ⟨?_, rfl, rfl, ?_⟩
    · unfold sleep_day_step
      rw [hq, hd, hf]
      simp
    · intro h404
      simp [sleepOnError, h404]
  · intro hq hd hf
    unfold sleep_day_step
    rw [hq, hd, hf]
    simp
  · intro dto hq hd hf hts
    unfold sleep_day_step
    rw [hq, hd, hf]
    simp [not_lt.mpr hts]

/-- C8 witness: in either feed a 404-failing fetch adds one error and no
skip with the log line suppressed, and a zero-total fetch adds one skip. -/
theorem daily_fetch_error_handling_witness :
    steps_day_step envSteps404 stepsState0 "2026-01-29" = stepsOnError stepsState0 err404
      ∧ (stepsOnError stepsState0 err404).logs = stepsState0.logs
      ∧ steps_day_step envStepsZero stepsState0 "2026-01-29"
          = { stepsState0 with skipped := stepsState0.skipped + 1 }
      ∧ sleep_day_step envSleep404 sleepState0 "2026-01-29" = sleepOnError sleepState0 err404
      ∧ (sleepOnError sleepState0 err404).logs = sleepState0.logs
      ∧ sleep_day_step envSleepZero sleepState0 "2026-01-29"
          = { sleepState0 with skipped := sleepState0.skipped + 1 } := by
  have hs := (daily_fetch_error_handling envSteps404 stepsState0 sleepState0 "2026-01-29"
    err404).1 rfl rfl rfl
  have hz := (daily_fetch_error_handling envStepsZero stepsState0 sleepState0 "2026-01-29"
    err404).2.2.1 stepsDataZero rfl rfl rfl (by decide)
  have ht := (daily_fetch_error_handling envSleep404 stepsState0 sleepState0 "2026-01-29"
    err404).2.2.2.2.1 rfl rfl rfl
  have hw := (daily_fetch_error_handling envSleepZero stepsState0 sleepState0 "2026-01-29"
    err404).2.2.2.2.2.2.1 sleepDTOZero rfl rfl rfl (by decide)
  exact ⟨hs.1, hs.2.2.2 rfl, hz, ht.1, ht.2.2.2 rfl, hw⟩

/-! ## C10 -/

/-- C10: the steps and sleep syncs are create-only.  For a date whose
document already exists, the store is left entirely unchanged (whatever the
other collaborator calls do), and the date is counted as skipped when the
query succeeds; conversely a write only ever appends one new document, and
only when no document exists for the date and the fetched total (step
count, or summed sleep seconds) is strictly positive. -/
theorem daily_syncs_create_only (env : Env) (s : StepsState) (t : SleepState) (d : String) :
    (s.docs.any (fun x => x.date = d) = true →
      (steps_day_step env s d).docs = s.docs
      ∧ (env.stepsQueryErr d = none →
          steps_day_step env s d = { s with skipped := s.skipped + 1 }))
    ∧ ((steps_day_step env s d).docs ≠ s.docs →
      s.docs.any (fun x => x.date = d) = false
      ∧ ∃ sd, env.stepsFetch d = .ok (some sd) ∧ 0 < sd.totalSteps.getD 0
        ∧ (steps_day_step env s d).docs = s.docs ++
            [⟨s.nextId, d, sd.totalSteps.getD 0,
              roundTo 2 (sd.totalDistanceMeters.getD 0 / 1000), sd.dailyStepGoal.getD 0⟩])
    ∧ (t.docs.any (fun x => x.longDate = d) = true →
      (sleep_day_step env t d).docs = t.docs
      ∧ (env.sleepQueryErr d = none →
          sleep_day_step env t d = { t with skipped := t.skipped + 1 }))
    ∧ ((sleep_day_step env t d).docs ≠ t.docs →
      t.docs.any (fun x => x.longDate = d) = false
      ∧ ∃ dto, env.sleepFetch d = .ok (some dto)
        ∧ 0 < dto.deepSleepSeconds.getD 0 + dto.lightSleepSeconds.getD 0
            + dto.remSleepSeconds.getD 0
        ∧ (sleep_day_step env t d).docs = t.docs ++ [build_sleep_page t.nextId d dto]) := by
  refine ⟨?_, ?_, ?_, ?_⟩
  · intro hd
    cases hq : env.stepsQueryErr d with
    | some e =>
      exact ⟨by simp [steps_day_step, hq, stepsOnError],
        fun h => absurd h (by simp)⟩
    | none =>
      constructor
      · simp [steps_day_step, hq, hd]
      · intro _
        simp [steps_day_step, hq, hd]
  · intro hne
    cases hq : env.stepsQueryErr d with
    | some e => exact absurd (by simp [steps_day_step, hq, stepsOnError]) hne
    | none =>
      by_cases hd : s.docs.any (fun x => x.date = d) = true
      · exact absurd (by simp [steps_day_step, hq, hd]) hne
      · refine ⟨eq_false_of_ne_true hd, ?_⟩
        cases hf : env.stepsFetch d with
        | error e =>
          exact absurd (by simp [steps_day_step, hq, eq_false_of_ne_true hd, hf, stepsOnError])
            hne
        | ok osd =>
          cases osd with
          | none =>
            exact absurd (by simp [steps_day_step, hq, eq_false_of_ne_true hd, hf]) hne
          | some sd =>
            by_cases hts : 0 < sd.totalSteps.getD 0
            · cases hc : env.stepsCreateErr d with
              | some e =>
                exact absurd
                  (by simp [steps_day_step, hq, eq_false_of_ne_true hd, hf, hts, hc,
                    stepsOnError]) hne
              | none =>
                exact ⟨sd, rfl, hts,
                  by simp [steps_day_step, hq, eq_false_of_ne_true hd, hf, hts, hc]⟩
            · exact absurd (by simp [steps_day_step, hq, eq_false_of_ne_true hd, hf, hts]) hne
  · intro hd
    cases hq : env.sleepQueryErr d with
    | some e =>
      exact ⟨by simp [sleep_day_step, hq, sleepOnError],
        fun h => absurd h (by simp)⟩
    | none =>
      constructor
      · simp [sleep_day_step, hq, hd]
      · intro _
        simp [sleep_day_step, hq, hd]
  · intro hne
    cases hq : env.sleepQueryErr d with
    | some e => exact absurd (by simp [sleep_day_step, hq, sleepOnError]) hne
    | none =>
      by_cases hd : t.docs.any (fun x => x.longDate = d) = true
      · exact absurd (by simp [sleep_day_step, hq, hd]) hne
      · refine ⟨eq_false_of_ne_true hd, ?_⟩
        cases hf : env.sleepFetch d with
        | error e =>
          exact absurd (by simp [sleep_day_step, hq, eq_false_of_ne_true hd, hf, sleepOnError])
            hne
        | ok osd =>
          cases osd with
          | none =>
            exact absurd (by simp [sleep_day_step, hq, eq_false_of_ne_true hd, hf]) hne
          | some dto =>
            by_cases hts : 0 < dto.deepSleepSeconds.getD 0 + dto.lightSleepSeconds.getD 0
                + dto.remSleepSeconds.getD 0
            · cases hc : env.sleepCreateErr d with
              | some e =>
                exact absurd
                  (by simp [sleep_day_step, hq, eq_false_of_ne_true hd, hf, hts, hc,
                    sleepOnError]) hne
              | none =>
                exact ⟨dto, rfl, hts,
                  by simp [sleep_day_step, hq, eq_false_of_ne_true hd, hf, hts, hc]⟩
            · exact absurd (by simp [sleep_day_step, hq, eq_false_of_ne_true hd, hf, hts]) hne

/-- C10 witness: a date with an existing steps document is skipped with the
store untouched even though the fetch would return positive data, and
likewise for sleep. -/
theorem daily_syncs_create_only_witness :
    steps_day_step envStepsData stepsStateWithJan "2026-01-28" =
        { stepsStateWithJan with skipped := stepsStateWithJan.skipped + 1 }
      ∧ sleep_day_step envSleepData sleepStateWithJan "2026-01-28" =
        { sleepStateWithJan with skipped := sleepStateWithJan.skipped + 1 } := by
  have h := daily_syncs_create_only envStepsData stepsStateWithJan sleepStateWithJan "2026-01-28"
  exact ⟨(h.1 (by rfl)).2 rfl, (h.2.2.1 (by rfl)).2 rfl⟩

/-! ## C1 helper lemmas -/

theorem create_props_garminId (r : Activity) : (create_props r).garminId = r.activityId := rfl

theorem update_props_garminId (old : NotionProps) (r : Activity) (g : ℤ)
    (hg : r.activityId = some g) : (update_props old r).garminId = some g := by
  simp [update_props, merge_update_props, hg]

theorem needs_update_create_props_false (r : Activity) :
    activity_needs_update (create_props r) r = false :=
  needs_update_build_props_false r _ _ _

theorem needs_update_update_props_false (old : NotionProps) (r : Activity) :
    activity_needs_update (update_props old r) r = false :=
  needs_update_merge_props_false old r _ _

theorem filter_eq_singleton_facts {α : Type} (l : List α) (q : α → Bool) (a : α)
    (h : l.filter q = [a]) :
    a ∈ l ∧ q a = true ∧ ∀ x ∈ l, q x = true → x = a := by
  have hmem : a ∈ l.filter q := by rw [h]; exact List.mem_singleton_self a
  refine ⟨List.mem_of_mem_filter hmem, List.of_mem_filter hmem, ?_⟩
  intro x hx hqx
  have : x ∈ l.filter q := List.mem_filter.mpr ⟨hx, hqx⟩
  rw [h] at this
  exact List.mem_singleton.mp this

theorem filter_eq_nil_facts {α : Type} (l : List α) (q : α → Bool)
    (h : l.filter q = []) : ∀ x ∈ l, q x = false := by
  intro x hx
  by_contra hq
  have : x ∈ l.filter q := List.mem_filter.mpr ⟨hx, eq_true_of_ne_false hq⟩
  rw [h] at this
  exact absurd this (List.not_mem_nil x)

/-- Replacing the props of the one page with id `i` makes it the unique
match of `q` when nothing else could match. -/
theorem filter_map_replace (l : List NotionPage) (i : ℕ) (p' : NotionProps)
    (q : NotionPage → Bool)
    (hnd : (l.map NotionPage.id).Nodup)
    (hmem : ∃ d ∈ l, d.id = i)
    (hq : ∀ x ∈ l, q x = true → x.id = i)
    (hq' : q ⟨i, p'⟩ = true) :
    (l.map (fun d => if d.id = i then ⟨d.id, p'⟩ else d)).filter q = [⟨i, p'⟩] := by
  induction l with
  | nil => obtain ⟨d, hd, _⟩ := hmem; exact absurd hd (List.not_mem_nil d)
  | cons a t ih =>
    rw [List.map_cons, List.nodup_cons] at hnd
    obtain ⟨hna, hndt⟩ := hnd
    by_cases ha : a.id = i
    · subst ha
      rw [List.map_cons]
      have hhead : (if a.id = a.id then (⟨a.id, p'⟩ : NotionPage) else a) = ⟨a.id, p'⟩ :=
        if_pos rfl
      rw [hhead, List.filter_cons_of_pos hq']
      have htail : ∀ x ∈ t, (if x.id = a.id then (⟨x.id, p'⟩ : NotionPage) else x) = x := by
        intro x hx
        have hxne : x.id ≠ a.id := by
          intro hxi
          exact hna (hxi ▸ List.mem_map_of_mem NotionPage.id hx)
        simp [hxne]
      rw [List.map_congr_left htail, List.map_id']
      have hall : ∀ x ∈ t, q x = false := by
        intro x hx
        by_contra hqx
        have hxi := hq x (List.mem_cons_of_mem a hx) (eq_true_of_ne_false hqx)
        exact hna (hxi ▸ List.mem_map_of_mem NotionPage.id hx)
      rw [List.filter_eq_nil_iff.mpr (fun x hx => by simp [hall x hx])]
    · simp only [List.map_cons, if_neg ha]
      have hqa : q a = false := by
        by_contra hqx
        exact ha (hq a (List.mem_cons_self a t) (eq_true_of_ne_false hqx))
      rw [List.filter_cons_of_neg (by simp [hqa])]
      apply ih hndt
      · obtain ⟨d, hd, hdi⟩ := hmem
        rcases List.mem_cons.mp hd with hda | hdt
        · exact absurd (hda ▸ hdi) ha
        · exact ⟨d, hdt, hdi⟩
      · intro x hx hqx
        exact hq x (List.mem_cons_of_mem a hx) hqx

theorem sync_step_unique_unchanged (env : Env) (s : SyncState) (r : Activity) (pg : NotionPage)
    (h1 : activity_exists_by_garmin_id env s.store r.activityId = .ok (.unique pg))
    (h2 : activity_needs_update pg.props r = false) :
    sync_step env s r = .ok { s with counters.unchanged := s.counters.unchanged + 1 } := by
  rw [sync_step_eval_unique env s r pg h1, h2]
  simp

theorem sync_step_fb_unique_unchanged (env : Env) (s : SyncState) (r : Activity)
    (pg : NotionPage)
    (h0 : activity_exists_by_garmin_id env s.store r.activityId = .ok .notFound)
    (h1 : fallback_for env s.store r = .ok (.unique pg))
    (h2 : activity_needs_update pg.props r = false) :
    sync_step env s r = .ok { s with counters.unchanged := s.counters.unchanged + 1 } := by
  rw [sync_step_eval_fb_unique env s r pg h0 h1, h2]
  simp

/-! ## C1 -/

/-- C1 counterexample: two id-less records sharing a fallback key (same
local day, type and name) but with different distances.  The first run
completes cleanly (one create, one update, no skip, no error) and the
source and store are then left unchanged, yet the second run performs two
update calls: each record keeps overwriting the shared document with its
own distance. -/
theorem second_run_counterexample :
    (sync_activities_run envAllOk (initState emptyStore)
        [actNoId5k, actNoId6k]).toOption.map (fun s1 => s1.counters) = some ⟨1, 1, 0, 0, 0⟩
      ∧ (runTwice emptyStore [actNoId5k, actNoId6k]).map (fun s2 => s2.counters) =
          some ⟨0, 2, 0, 0, 0⟩ := by
  constructor
  · with_unfolding_all rfl
  · with_unfolding_all rfl

/-- C1 (amended): for a single-record batch whose record carries an
external id, over a store with distinct document ids and collaborators
whose queries and writes all succeed, if the first run completes without a
skipped collision then a second run over the unchanged source and store
performs zero create and zero update calls: the record resolves to an
existing document reported as unchanged, and the store is left as the first
run left it.  (Multi-record batches can break this -- see the
counterexample -- as can id-less records with unparsable timestamps, which
re-create their document on every run.) -/
theorem second_run_idempotent (env : Env) (store : Store) (r : Activity) (g : ℤ)
    (s1 : SyncState)
    (hg : r.activityId = some g)
    (hid : ∀ x, env.idQueryErr x = none)
    (hfb : env.fbQueryErr = none)
    (hcr : ∀ p, env.createErr p = none)
    (hup : ∀ i p, env.updateErr i p = none)
    (hnd : (store.docs.map NotionPage.id).Nodup)
    (h1 : sync_activities_run env (initState store) [r] = .ok s1)
    (hskip : s1.counters.skipped = 0) :
    sync_activities_run env (initState s1.store) [r] = .ok ⟨s1.store, ⟨0, 0, 1, 0, 0⟩, []⟩ := by
  have hstep1 := run_single_step env (initState store) s1 r h1
  have hq := hid g
  cases hfil : store.docs.filter (matchesGarminId g) with
  | nil =>
    have hbyid : activity_exists_by_garmin_id env store (some g) = .ok .notFound := by
      rw [byId_ok env store g hq, hfil]
    have hbyid' : activity_exists_by_garmin_id env (initState store).store r.activityId
        = .ok .notFound := by
      rw [hg]; exact hbyid
    have createCase : fallback_for env store r = .ok .notFound →
        sync_activities_run env (initState s1.store) [r] =
          .ok ⟨s1.store, ⟨0, 0, 1, 0, 0⟩, []⟩ := by
      intro hfbres
      have hwok := create_activity_ok env (initState store).store r (hcr _)
      have hstepX : sync_step env (initState store) r = .ok
          ⟨store.addDoc (create_props r), ⟨1, 0, 0, 0, 0⟩,
           [.createCall (create_props r)]⟩ := by
        rw [sync_step_eval_create env (initState store) r hbyid' hfbres, hwok]
        simp [initState]
      have hs1 := Except.ok.inj (hstepX.symm.trans hstep1)
      subst hs1
      apply run_single_of_step
      have hfil2run : (store.addDoc (create_props r)).docs.filter (matchesGarminId g)
          = [⟨store.nextId, create_props r⟩] := by
        simp only [Store.addDoc, List.filter_append, hfil]
        simp [matchesGarminId, create_props_garminId, hg]
      have hby2 : activity_exists_by_garmin_id env (store.addDoc (create_props r)) (some g)
          = .ok (.unique ⟨store.nextId, create_props r⟩) := by
        rw [byId_ok env _ g hq, hfil2run]
      exact sync_step_unique_unchanged env _ r ⟨store.nextId, create_props r⟩
        (by rw [hg]; exact hby2) (needs_update_create_props_false r)
    cases hrange : get_local_date_range r.startTimeGMT with
    | none =>
      exact createCase (fb_none env store r.startTimeGMT _ _ hrange)
    | some rng =>
      obtain ⟨rs, re⟩ := rng
      have hfbeval := fb_ok env store r.startTimeGMT
        (format_activity_type (r.typeKey.getD "Unknown") (format_entertainment r.activityName)).1
        (format_entertainment r.activityName) rs re hrange hfb
      cases hfil2 : store.docs.filter (matchesFallback rs re
          (format_activity_type (r.typeKey.getD "Unknown")
            (format_entertainment r.activityName)).1
          (format_entertainment r.activityName)) with
      | nil =>
        apply createCase
        unfold fallback_for
        rw [hfbeval, hfil2]
      | cons pg rest =>
        cases rest with
        | nil =>
          have hfbres : fallback_for env store r = .ok (.unique pg) := by
            unfold fallback_for
            rw [hfbeval, hfil2]
          obtain ⟨hpgmem, hpgq, huniq⟩ := filter_eq_singleton_facts _ _ _ hfil2
          by_cases hneed : activity_needs_update pg.props r = true
          · have hwok := update_activity_ok env (initState store).store pg r (hup _ _)
            have hstepX : sync_step env (initState store) r = .ok
                ⟨store.updateDoc pg.id (update_props pg.props r), ⟨0, 1, 0, 0, 0⟩,
                 [.updateCall pg.id (update_props pg.props r)]⟩ := by
              rw [sync_step_eval_fb_unique env (initState store) r pg hbyid' hfbres, hneed,
                hwok]
              simp [initState]
            have hs1 := Except.ok.inj (hstepX.symm.trans hstep1)
            subst hs1
            apply run_single_of_step
            have hqG : ∀ x ∈ store.docs, matchesGarminId g x = true → x.id = pg.id := by
              intro x hx hqx
              have hfalse := filter_eq_nil_facts store.docs (matchesGarminId g) hfil x hx
              rw [hfalse] at hqx
              exact absurd hqx (by simp)
            have hfil2run : (store.updateDoc pg.id (update_props pg.props r)).docs.filter
                (matchesGarminId g) = [⟨pg.id, update_props pg.props r⟩] := by
              simp only [Store.updateDoc]
              exact filter_map_replace store.docs pg.id (update_props pg.props r)
                (matchesGarminId g) hnd ⟨pg, hpgmem, rfl⟩ hqG
                (by simp [matchesGarminId, update_props_garminId pg.props r g hg])
            have hby2 : activity_exists_by_garmin_id env
                (store.updateDoc pg.id (update_props pg.props r)) (some g)
                = .ok (.unique ⟨pg.id, update_props pg.props r⟩) := by
              rw [byId_ok env _ g hq, hfil2run]
            exact sync_step_unique_unchanged env _ r ⟨pg.id, update_props pg.props r⟩
              (by rw [hg]; exact hby2) (needs_update_update_props_false pg.props r)
          · have hneedF := eq_false_of_ne_true hneed
            have hstepX : sync_step env (initState store) r = .ok
                ⟨store, ⟨0, 0, 1, 0, 0⟩, []⟩ := by
              rw [sync_step_fb_unique_unchanged env (initState store) r pg hbyid' hfbres hneedF]
              rfl
            have hs1 := Except.ok.inj (hstepX.symm.trans hstep1)
            subst hs1
            apply run_single_of_step
            exact sync_step_fb_unique_unchanged env _ r pg (by rw [hg]; exact hbyid)
              hfbres hneedF
        | cons pg2 rest2 =>
          have hfbres : fallback_for env store r
              = .ok (.multiple ((pg :: pg2 :: rest2).map (·.id))) := by
            unfold fallback_for
            rw [hfbeval, hfil2]
          have hstepX := sync_step_eval_skip_fb env (initState store) r _ hbyid' hfbres
          have hs1 := Except.ok.inj (hstepX.symm.trans hstep1)
          rw [← hs1] at hskip
          simp [initState] at hskip
  | cons pg rest =>
    cases rest with
    | nil =>
      have hbyid : activity_exists_by_garmin_id env store (some g) = .ok (.unique pg) := by
        rw [byId_ok env store g hq, hfil]
      have hbyid' : activity_exists_by_garmin_id env (initState store).store r.activityId
          = .ok (.unique pg) := by
        rw [hg]; exact hbyid
      obtain ⟨hpgmem, hpgq, huniq⟩ := filter_eq_singleton_facts _ _ _ hfil
      by_cases hneed : activity_needs_update pg.props r = true
      · have hwok := update_activity_ok env (initState store).store pg r (hup _ _)
        have hstepX : sync_step env (initState store) r = .ok
            ⟨store.updateDoc pg.id (update_props pg.props r), ⟨0, 1, 0, 0, 0⟩,
             [.updateCall pg.id (update_props pg.props r)]⟩ := by
          rw [sync_step_eval_unique env (initState store) r pg hbyid', hneed, hwok]
          simp [initState]
        have hs1 := Except.ok.inj (hstepX.symm.trans hstep1)
        subst hs1
        apply run_single_of_step
        have hqG : ∀ x ∈ store.docs, matchesGarminId g x = true → x.id = pg.id := by
          intro x hx hqx
          rw [huniq x hx hqx]
        have hfil2run : (store.updateDoc pg.id (update_props pg.props r)).docs.filter
            (matchesGarminId g) = [⟨pg.id, update_props pg.props r⟩] := by
          simp only [Store.updateDoc]
          exact filter_map_replace store.docs pg.id (update_props pg.props r)
            (matchesGarminId g) hnd ⟨pg, hpgmem, rfl⟩ hqG
            (by simp [matchesGarminId, update_props_garminId pg.props r g hg])
        have hby2 : activity_exists_by_garmin_id env
            (store.updateDoc pg.id (update_props pg.props r)) (some g)
            = .ok (.unique ⟨pg.id, update_props pg.props r⟩) := by
          rw [byId_ok env _ g hq, hfil2run]
        exact sync_step_unique_unchanged env _ r ⟨pg.id, update_props pg.props r⟩
          (by rw [hg]; exact hby2) (needs_update_update_props_false pg.props r)
      · have hneedF := eq_false_of_ne_true hneed
        have hstepX : sync_step env (initState store) r = .ok
            ⟨store, ⟨0, 0, 1, 0, 0⟩, []⟩ := by
          rw [sync_step_unique_unchanged env (initState store) r pg hbyid' hneedF]
          rfl
        have hs1 := Except.ok.inj (hstepX.symm.trans hstep1)
        subst hs1
        apply run_single_of_step
        exact sync_step_unique_unchanged env _ r pg (by rw [hg]; exact hbyid) hneedF
    | cons pg2 rest2 =>
      have hbyid : activity_exists_by_garmin_id env store (some g)
          = .ok (.multiple ((pg :: pg2 :: rest2).map (·.id))) := by
        rw [byId_ok env store g hq, hfil]
      have hstepX := sync_step_eval_skip_byid env (initState store) r _
        (by rw [hg]; exact hbyid)
      have hs1 := Except.ok.inj (hstepX.symm.trans hstep1)
      rw [← hs1] at hskip
      simp [initState] at hskip

/-- C1 witness: a clean single-record run (a create) followed by a second
run that resolves the record to the created document and reports it
unchanged. -/
theorem second_run_idempotent_witness :
    ∃ s1, sync_activities_run envAllOk (initState emptyStore) [actRun77] = .ok s1
      ∧ sync_activities_run envAllOk (initState s1.store) [actRun77] =
          .ok ⟨s1.store, ⟨0, 0, 1, 0, 0⟩, []⟩ := by
  have hrun : sync_activities_run envAllOk (initState emptyStore) [actRun77] = .ok
      ⟨⟨[⟨0, create_props actRun77⟩], 1⟩, ⟨1, 0, 0, 0, 0⟩,
       [.createCall (create_props actRun77)]⟩ := by
    with_unfolding_all rfl
  exact ⟨_, hrun, second_run_idempotent envAllOk emptyStore actRun77 77 _ rfl
    (fun _ => rfl) rfl (fun _ => rfl) (fun _ _ => rfl) List.nodup_nil hrun rfl⟩

end GarminSync
